import Mathlib

/-!
Shallow embedding of the XAUUSD-ANALYZER signal pipeline.

Sources embedded here:
  * `pages/api/analyze.ts` (src/unnamed/part_001): `combineSignals` and the
    sequential context modifiers inside `handler` (spread quality, weekly
    range position, news-risk override, fundamental bias).
  * `lib/analysis.ts` (src/unnamed/part_005): `detectAMD`, `detectOrderBlocks`,
    `detectFVGs`, `detectSRLevels`, `detectLiquidityZones`, `buildSignal`
    and their helpers.
  * `lib/priceaction.ts`: candlestick/chart pattern detectors, wick analysis
    and `generatePriceActionSignal`.

Conventions:
  * JS numbers are embedded as `ℚ` (exact rational arithmetic).  Every
    division appearing in the source is embedded as `jsDiv`, which returns
    `none` when the denominator is zero.  In every zero-denominator case
    actually reachable in the embedded code the numerator is zero as well,
    so the JS value is `NaN`; `none` models it, and `oLt`/`oGt` model the
    JS comparisons on it (any comparison with `NaN` is false).
  * `Math.round` is embedded as Mathlib's `round` (both are ⌊x + 1/2⌋).
  * String interpolation of numbers (`toFixed`, template literals) is
    embedded by `jsNumStr`/`jsToFixed0`/`jsToFixed2`; the exact decimal
    rendering of JS is approximated — no claim depends on rendered text,
    only on which confluence entries are appended and in what order.
-/

namespace XAU

/-- JS division; `none` stands for the non-finite result (NaN) produced on a
zero denominator. -/
def jsDiv (a b : ℚ) : Option ℚ :=
  if b = 0 then none else some (a / b)

/-- JS `<` where the left operand may be NaN (`none`): NaN comparisons are
always false. -/
def oLt (a : Option ℚ) (b : ℚ) : Bool :=
  match a with
  | none => false
  | some q => decide (q < b)

/-- JS `>` where the left operand may be NaN (`none`). -/
def oGt (a : Option ℚ) (b : ℚ) : Bool :=
  match a with
  | none => false
  | some q => decide (q > b)

/-- `Math.max(...list)` on a nonempty list; the empty case (−Infinity in JS)
is never reached by the embedded call sites exercised here and is mapped
to 0. -/
def listMax : List ℚ → ℚ
  | [] => 0
  | h :: t => t.foldl max h

/-- `Math.min(...list)` on a nonempty list (empty case as in `listMax`). -/
def listMin : List ℚ → ℚ
  | [] => 0
  | h :: t => t.foldl min h

/-- JS `arr.slice(-n)`: the last `n` elements (whole list when shorter). -/
def lastN (l : List α) (n : Nat) : List α :=
  l.drop (l.length - n)

/-- Approximate rendering of a JS number in a template literal. -/
def jsNumStr (q : ℚ) : String :=
  if q.den = 1 then toString q.num else toString q.num ++ "/" ++ toString q.den

/-- Approximate `x.toFixed(0)`. -/
def jsToFixed0 (q : ℚ) : String := toString (round q)

/-- Approximate `x.toFixed(2)`. -/
def jsToFixed2 (q : ℚ) : String := toString (round (q * 100)) ++ "e-2"

/-- One OHLCV bar (`Candle` in lib/twelvedata.ts / lib/priceaction.ts).
`open` is a Lean keyword, hence the field name `open_`. -/
structure Candle where
  time : Int
  open_ : ℚ
  high : ℚ
  low : ℚ
  close : ℚ
  volume : ℚ
deriving DecidableEq, Repr

/-- `'BUY' | 'SELL' | 'WAIT'`. -/
inductive Action | BUY | SELL | WAIT
deriving DecidableEq, Repr

def Action.str : Action → String
  | .BUY => "BUY"
  | .SELL => "SELL"
  | .WAIT => "WAIT"

/-- `'BULLISH' | 'BEARISH' | 'NEUTRAL'`. -/
inductive Bias | BULLISH | BEARISH | NEUTRAL
deriving DecidableEq, Repr

def Bias.str : Bias → String
  | .BULLISH => "BULLISH"
  | .BEARISH => "BEARISH"
  | .NEUTRAL => "NEUTRAL"

/-- AMD phase union in lib/analysis.ts. -/
inductive Phase | ACCUMULATION | DISTRIBUTION | MANIPULATION | DECLINE | TRANSITION
deriving DecidableEq, Repr

/-- `AMDPhase` (lib/analysis.ts).  The source computes only `asia` and
`london` ranges (`detectSessionRanges` never returns `ny`). -/
structure AMDPhase where
  phase : Phase
  description : String
  bias : Bias
  sessionHigh : ℚ
  sessionLow : ℚ
  asiaHigh : Option ℚ
  asiaLow : Option ℚ
  londonHigh : Option ℚ
  londonLow : Option ℚ
  nyHigh : Option ℚ
  nyLow : Option ℚ
  manipulation : String
  strength : ℚ
deriving DecidableEq, Repr

/-- `'STRONG' | 'MODERATE' | 'WEAK'`. -/
inductive OBStrength | STRONG | MODERATE | WEAK
deriving DecidableEq, Repr

/-- `OrderBlock` (lib/analysis.ts). -/
structure OrderBlock where
  id : String
  type : Bias
  top : ℚ
  bottom : ℚ
  bodyTop : ℚ
  bodyBottom : ℚ
  time : Int
  strength : OBStrength
  touched : ℚ
  broken : Bool
deriving DecidableEq, Repr

/-- `FVG` (fair value gap, lib/analysis.ts). -/
structure FVG where
  id : String
  type : Bias
  top : ℚ
  bottom : ℚ
  size : ℚ
  midpoint : ℚ
  time : Int
  mitigated : Bool
deriving DecidableEq, Repr

/-- S/R level type union (lib/analysis.ts); only `SUPPORT`/`RESISTANCE` are
produced by `detectSRLevels`. -/
inductive SRType | SUPPORT | RESISTANCE | SUPPORT_MAJOR | RESISTANCE_MAJOR | SWING_LOW | SWING_HIGH
deriving DecidableEq, Repr

/-- `sr.type.includes('SUPPORT')` used in buildSignal. -/
def SRType.isSupport : SRType → Bool
  | .SUPPORT | .SUPPORT_MAJOR => true
  | _ => false

/-- `sr.type.includes('RESISTANCE')` used in buildSignal. -/
def SRType.isResistance : SRType → Bool
  | .RESISTANCE | .RESISTANCE_MAJOR => true
  | _ => false

/-- `SRLevel` (lib/analysis.ts). -/
structure SRLevel where
  price : ℚ
  type : SRType
  touches : ℚ
  strength : ℚ
  broken : Bool
  recentTest : Bool
deriving DecidableEq, Repr

/-- `LiquidityZone` (lib/analysis.ts). -/
structure LiquidityZone where
  id : String
  type : String
  price : ℚ
  strength : ℚ
  swept : Bool
  time : Int
deriving DecidableEq, Repr

/-- `pips` sub-object of `GoldSignal`. -/
structure Pips where
  sl : ℚ
  tp1 : ℚ
  tp2 : ℚ
  tp3 : ℚ
deriving DecidableEq, Repr

/-- `GoldSignal` (lib/analysis.ts).  `rr1..rr3` are `Option ℚ` because the
source computes them by division (NaN when the stop distance is zero). -/
structure GoldSignal where
  action : Action
  confidence : ℚ
  entry : ℚ
  entryZone : ℚ × ℚ
  stopLoss : ℚ
  tp1 : ℚ
  tp2 : ℚ
  tp3 : ℚ
  rr1 : Option ℚ
  rr2 : Option ℚ
  rr3 : Option ℚ
  pips : Pips
  confluences : List String
  invalidation : String
  sessionBias : String
  mtaScore : ℚ
  patternScore : ℚ
  liquidityScore : ℚ
  overallScore : ℚ
deriving DecidableEq, Repr

/-- `'bullish' | 'bearish' | 'neutral'` (lib/priceaction.ts unions). -/
inductive CsType | bullish | bearish | neutral
deriving DecidableEq, Repr

/-- `'strong' | 'moderate' | 'weak'`. -/
inductive CsStrength | strong | moderate | weak
deriving DecidableEq, Repr

/-- `CandlestickPattern` (lib/priceaction.ts). -/
structure CandlestickPattern where
  name : String
  type : CsType
  strength : CsStrength
  index : Nat
  confidence : ℚ
  description : String
deriving DecidableEq, Repr

/-- `'upper' | 'lower' | 'none'`. -/
inductive RejType | upper | lower | noRej
deriving DecidableEq, Repr

/-- `WickAnalysis` (lib/priceaction.ts). -/
structure WickAnalysis where
  upperWickRatio : ℚ
  lowerWickRatio : ℚ
  bodyRatio : ℚ
  sentiment : CsType
  rejectionType : RejType
  significance : ℚ
deriving DecidableEq, Repr

/-- `'continuation' | 'reversal'`. -/
inductive CpKind | continuation | reversal
deriving DecidableEq, Repr

/-- `ChartPattern` (lib/priceaction.ts); `direction` uses only the
bullish/bearish constructors of `CsType`. -/
structure ChartPattern where
  name : String
  type : CpKind
  direction : CsType
  startIndex : Nat
  endIndex : Nat
  breakoutLevel : ℚ
  targetLevel : ℚ
  confidence : ℚ
deriving DecidableEq, Repr

/-- `PriceActionSignal` (lib/priceaction.ts). -/
structure PriceActionSignal where
  action : Action
  confidence : ℚ
  entry : ℚ
  stopLoss : ℚ
  takeProfit1 : ℚ
  takeProfit2 : ℚ
  riskReward : Option ℚ
  patterns : List CandlestickPattern
  chartPattern : Option ChartPattern
  wickAnalysis : WickAnalysis
  confluences : List String
deriving DecidableEq, Repr

/-- The object returned by `combineSignals` in pages/api/analyze.ts: the
spread `{...ictSignal}` plus the `priceActionPatterns` field. -/
structure HybridSignal where
  action : Action
  confidence : ℚ
  entry : ℚ
  entryZone : ℚ × ℚ
  stopLoss : ℚ
  tp1 : ℚ
  tp2 : ℚ
  tp3 : ℚ
  rr1 : Option ℚ
  rr2 : Option ℚ
  rr3 : Option ℚ
  pips : Pips
  confluences : List String
  invalidation : String
  sessionBias : String
  mtaScore : ℚ
  patternScore : ℚ
  liquidityScore : ℚ
  overallScore : ℚ
  priceActionPatterns : List String
deriving DecidableEq, Repr

/-- `{...ictSignal, priceActionPatterns := pats}`. -/
def spreadIct (g : GoldSignal) (pats : List String) : HybridSignal :=
  { action := g.action, confidence := g.confidence, entry := g.entry,
    entryZone := g.entryZone, stopLoss := g.stopLoss,
    tp1 := g.tp1, tp2 := g.tp2, tp3 := g.tp3,
    rr1 := g.rr1, rr2 := g.rr2, rr3 := g.rr3, pips := g.pips,
    confluences := g.confluences, invalidation := g.invalidation,
    sessionBias := g.sessionBias, mtaScore := g.mtaScore,
    patternScore := g.patternScore, liquidityScore := g.liquidityScore,
    overallScore := g.overallScore, priceActionPatterns := pats }

/-- `combineSignals` (pages/api/analyze.ts, lines 50-131).  The `atr`
parameter is accepted and unused, exactly as in the source. -/
def combineSignals (ictSignal : GoldSignal) (paSignal : PriceActionSignal)
    (atr : ℚ) : HybridSignal :=
  let _ := atr
  let ictAction := ictSignal.action
  let paAction := paSignal.action
  let patNames := paSignal.patterns.map (fun p => p.name)
  -- If both agree, boost confidence significantly
  if ictAction = paAction ∧ ictAction ≠ Action.WAIT then
    let combinedConfidence := min 95 (ictSignal.confidence * 0.6 + paSignal.confidence * 0.4)
    let avgEntry := (ictSignal.entry + paSignal.entry) / 2
    let avgTP1 := (ictSignal.tp1 + paSignal.takeProfit1) / 2
    let avgSL := (ictSignal.stopLoss + paSignal.stopLoss) / 2
    { spreadIct ictSignal patNames with
      action := ictAction,
      confidence := combinedConfidence,
      entry := avgEntry,
      tp1 := avgTP1,
      stopLoss := avgSL,
      rr1 := jsDiv |avgTP1 - avgEntry| |avgSL - avgEntry|,
      confluences := ictSignal.confluences ++
        ["PA Confirmation: " ++ String.intercalate ", " patNames,
         "Combined ICT + PA Confidence: " ++ jsToFixed0 combinedConfidence ++ "%"] }
  -- If they conflict, reduce confidence and default to WAIT
  else if ictAction ≠ paAction ∧ ictAction ≠ Action.WAIT ∧ paAction ≠ Action.WAIT then
    { spreadIct ictSignal patNames with
      action := Action.WAIT,
      confidence := min ictSignal.confidence paSignal.confidence * 0.5,
      confluences := ictSignal.confluences ++
        ["Signal Conflict: ICT " ++ ictAction.str ++ " vs PA " ++ paAction.str ++
         " - waiting for clarity"] }
  -- If ICT is WAIT and PA is not, use the PA signal at a 0.8 discount
  else if ictAction = Action.WAIT ∧ paAction ≠ Action.WAIT then
    { spreadIct ictSignal patNames with
      action := paSignal.action,
      confidence := paSignal.confidence * 0.8,
      entry := paSignal.entry,
      tp1 := paSignal.takeProfit1,
      stopLoss := paSignal.stopLoss,
      rr1 := paSignal.riskReward,
      confluences :=
        ["PA Signal: " ++ paSignal.action.str ++ " (" ++ jsToFixed0 paSignal.confidence ++ "%)"] ++
        paSignal.confluences ++ ["ICT showing consolidation/neutral"] }
  -- If PA is WAIT and ICT is not, keep the ICT signal unchanged
  else if paAction = Action.WAIT ∧ ictAction ≠ Action.WAIT then
    { spreadIct ictSignal patNames with
      confluences := ictSignal.confluences ++
        ["PA showing consolidation - ICT signal " ++ ictAction.str ++ " at " ++
         jsToFixed0 ictSignal.confidence ++ "%"] }
  -- Both WAIT
  else
    { spreadIct ictSignal patNames with
      confluences := ictSignal.confluences ++ ["PA + ICT agree: sideways/consolidation"] }

/-- `'BULLISH_GOLD' | 'BEARISH_GOLD' | 'NEUTRAL'` (lib/news.ts news bias). -/
inductive NewsBias | BULLISH_GOLD | BEARISH_GOLD | NEUTRAL
deriving DecidableEq, Repr

/-- The context read by the modifier block of `handler`
(pages/api/analyze.ts, lines 199-244): spread quality flag
(`spotInsights?.spreadQuality === 'WIDE'`), the optional spread value used
in the message, the optional weekly range position
(`spotInsights?.weeklyRange?.positionPct`), the news-risk `avoid` flag and
the fundamental news bias. -/
structure ModifierInput where
  spreadWide : Bool
  spread : Option ℚ
  weeklyPos : Option ℚ
  avoid : Bool
  newsBias : NewsBias
deriving DecidableEq, Repr

/-- Spot-insights spread modifier (handler lines 199-202). -/
def applySpread (m : ModifierInput) (s : HybridSignal) : HybridSignal :=
  if m.spreadWide ∧ s.action ≠ Action.WAIT then
    { s with confidence := max 20 (s.confidence - 10),
             confluences := s.confluences ++
               ["Wide bid/ask spread (" ++ ((m.spread.map jsToFixed2).getD "undefined") ++
                ") - possible low liquidity"] }
  else s

/-- First weekly-range conditional (BUY near weekly high). -/
def weeklyBuyHigh (pos : ℚ) (s : HybridSignal) : HybridSignal :=
  if s.action = Action.BUY ∧ pos > 80 then
    { s with confidence := max 20 (s.confidence - 8),
             confluences := s.confluences ++
               ["Price at " ++ jsNumStr pos ++ "% of weekly range - near weekly high, BUY risk elevated"] }
  else s

/-- Second weekly-range conditional (SELL near weekly low). -/
def weeklySellLow (pos : ℚ) (s : HybridSignal) : HybridSignal :=
  if s.action = Action.SELL ∧ pos < 20 then
    { s with confidence := max 20 (s.confidence - 8),
             confluences := s.confluences ++
               ["Price at " ++ jsNumStr pos ++ "% of weekly range - near weekly low, SELL risk elevated"] }
  else s

/-- Third weekly-range conditional (BUY in discount zone). -/
def weeklyBuyLow (pos : ℚ) (s : HybridSignal) : HybridSignal :=
  if s.action = Action.BUY ∧ pos < 30 then
    { s with confidence := min 95 (s.confidence + 5),
             confluences := s.confluences ++
               ["Buying near weekly low (" ++ jsNumStr pos ++ "% range) - discount zone"] }
  else s

/-- Fourth weekly-range conditional (SELL in premium zone). -/
def weeklySellHigh (pos : ℚ) (s : HybridSignal) : HybridSignal :=
  if s.action = Action.SELL ∧ pos > 70 then
    { s with confidence := min 95 (s.confidence + 5),
             confluences := s.confluences ++
               ["Selling near weekly high (" ++ jsNumStr pos ++ "% range) - premium zone"] }
  else s

/-- Weekly-range position modifier (handler lines 205-223): the four `if`
statements run in sequence on the mutated signal. -/
def applyWeekly (m : ModifierInput) (s : HybridSignal) : HybridSignal :=
  match m.weeklyPos with
  | none => s
  | some pos => weeklySellHigh pos (weeklyBuyLow pos (weeklySellLow pos (weeklyBuyHigh pos s)))

/-- News risk override (handler lines 226-230). -/
def applyNews (m : ModifierInput) (s : HybridSignal) : HybridSignal :=
  if m.avoid ∧ s.action ≠ Action.WAIT then
    { s with action := Action.WAIT,
             confidence := min s.confidence 25,
             confluences := s.confluences ++
               ["BLOCKED: High-impact news imminent - protect capital"] }
  else s

/-- Fundamental news-bias modifier (handler lines 232-244). -/
def applyFundamental (m : ModifierInput) (s : HybridSignal) : HybridSignal :=
  if m.newsBias = NewsBias.BULLISH_GOLD ∧ s.action = Action.BUY then
    { s with confidence := min 95 (s.confidence + 10),
             confluences := s.confluences ++
               ["Fundamentals confirm: USD weakness -> Gold bullish"] }
  else if m.newsBias = NewsBias.BEARISH_GOLD ∧ s.action = Action.SELL then
    { s with confidence := min 95 (s.confidence + 10),
             confluences := s.confluences ++
               ["Fundamentals confirm: USD weakness -> Gold bearish"] }
  else if (m.newsBias = NewsBias.BULLISH_GOLD ∧ s.action = Action.SELL) ∨
          (m.newsBias = NewsBias.BEARISH_GOLD ∧ s.action = Action.BUY) then
    { s with confidence := max 20 (s.confidence - 15),
             confluences := s.confluences ++
               ["WARNING: Fundamentals conflict with technical signal"] }
  else s

/-- The full modifier block of `handler`, in source order: spread quality,
weekly range position, news-risk override, fundamental bias. -/
def applyModifiers (m : ModifierInput) (s : HybridSignal) : HybridSignal :=
  applyFundamental m (applyNews m (applyWeekly m (applySpread m s)))

/-- Placeholder for the JS `undefined` read of `candles[candles.length-1]`
on an empty array; every embedded call site passes a nonempty series. -/
def dummyCandle : Candle := ⟨0, 0, 0, 0, 0, 0⟩

/-- `candles[candles.length - 1]`. -/
def jsLast (l : List Candle) : Candle := (l.getLast?).getD dummyCandle

/-- JS truthiness of a `number | null` value (`null`, `NaN` and `0` are
falsy; `calculateEMA` never returns NaN here). -/
def truthy (o : Option ℚ) : Bool :=
  match o with
  | none => false
  | some v => v ≠ 0

def Phase.str : Phase → String
  | .ACCUMULATION => "ACCUMULATION"
  | .DISTRIBUTION => "DISTRIBUTION"
  | .MANIPULATION => "MANIPULATION"
  | .DECLINE => "DECLINE"
  | .TRANSITION => "TRANSITION"

/-- `detectSessionRanges` (lib/analysis.ts): splits the last 50 bars at the
midpoint; note the source returns only `asia` and `london`, never `ny`. -/
def detectSessionRanges (candles : List Candle) :
    Option (ℚ × ℚ) × Option (ℚ × ℚ) × Option (ℚ × ℚ) :=
  let recent := lastN candles 50
  let midpoint := recent.length / 2
  let asia := some (listMax ((recent.take midpoint).map (·.high)),
                    listMin ((recent.take midpoint).map (·.low)))
  let london := some (listMax ((recent.drop midpoint).map (·.high)),
                      listMin ((recent.drop midpoint).map (·.low)))
  (asia, london, none)

/-- `detectManipulation` (lib/analysis.ts): a large upper wick among the
last 10 bars (positions 2..) whose close sits below half the wick. -/
def detectManipulation (candles : List Candle) : Bool :=
  ((lastN candles 10).drop 2).any fun curr =>
    let upperWick := curr.high - max curr.open_ curr.close
    let bodySize := |curr.close - curr.open_|
    decide (upperWick > bodySize * 2 ∧ curr.close < curr.high - upperWick * 0.5)

/-- Number of indices `i ≥ 1` with `l[i] < l[i-1]`. -/
def countDownSteps (l : List ℚ) : Nat :=
  (l.zip l.tail).countP fun p => decide (p.2 < p.1)

/-- `detectDecline` (lib/analysis.ts): more than 12 lower highs and more
than 12 lower lows over the last 20 bars. -/
def detectDecline (candles : List Candle) : Bool :=
  let recent := lastN candles 20
  let lowerHighs := countDownSteps (recent.map (·.high))
  let lowerLows := countDownSteps (recent.map (·.low))
  decide (lowerHighs > 12 ∧ lowerLows > 12)

/-- `calculateEMA` (lib/analysis.ts). -/
def calculateEMA (candles : List Candle) (period : Nat) : Option ℚ :=
  if candles.length < period then none
  else
    let closes := candles.map (·.close)
    let multiplier : ℚ := 2 / ((period : ℚ) + 1)
    let start := (closes.take period).sum / (period : ℚ)
    some ((closes.drop period).foldl (fun ema c => (c - ema) * multiplier + ema) start)

/-- `detectAMD` (lib/analysis.ts, lines 137-218).  `pricePosition` and
`rangeExpansion` are NaN (`none`) on a flat window; the source's `<`/`>`
tests on them are embedded with `oLt`/`oGt` (false on NaN, as in JS). -/
def detectAMD (candles : List Candle) (interval : String) : AMDPhase :=
  let _ := interval
  let latest := jsLast candles
  let last20 := lastN candles 20
  let last50 := lastN candles 50
  let ranges := detectSessionRanges candles
  let asia := ranges.1
  let london := ranges.2.1
  let ny := ranges.2.2
  let sessionHigh := listMax (last20.map (·.high))
  let sessionLow := listMin (last20.map (·.low))
  let recentHigh := listMax (last50.map (·.high))
  let recentLow := listMin (last50.map (·.low))
  let pricePosition := jsDiv (latest.close - sessionLow) (sessionHigh - sessionLow)
  let rangeExpansion := jsDiv (sessionHigh - sessionLow) (recentHigh - recentLow)
  let pd : Phase × String × ℚ :=
    if oLt pricePosition 0.35 ∧ oLt rangeExpansion 0.5 then
      (Phase.ACCUMULATION,
       "Price consolidating near session lows - potential accumulation phase", 70)
    else if oGt pricePosition 0.65 ∧ oLt rangeExpansion 0.5 then
      (Phase.DISTRIBUTION,
       "Price distributing near session highs - potential distribution phase", 70)
    else if detectManipulation candles then
      (Phase.MANIPULATION,
       "Recent liquidity sweep detected - awaiting structure confirmation", 60)
    else if detectDecline candles then
      (Phase.DECLINE, "Clear bearish structure - downtrend in progress", 75)
    else
      (Phase.TRANSITION, "Market in transition - awaiting clear directional bias", 40)
  let phase := pd.1
  let bias0 : Bias :=
    if oGt pricePosition 0.6 then Bias.BEARISH
    else if oLt pricePosition 0.4 then Bias.BULLISH
    else Bias.NEUTRAL
  let ema20 := calculateEMA candles 20
  let ema50 := calculateEMA candles 50
  let bias : Bias :=
    if truthy ema20 ∧ truthy ema50 then
      if ema20.getD 0 > ema50.getD 0 then
        (if bias0 = Bias.BEARISH then Bias.NEUTRAL else Bias.BULLISH)
      else
        (if bias0 = Bias.BULLISH then Bias.NEUTRAL else Bias.BEARISH)
    else bias0
  { phase := phase,
    description := pd.2.1,
    bias := bias,
    sessionHigh := sessionHigh,
    sessionLow := sessionLow,
    asiaHigh := asia.map (·.1), asiaLow := asia.map (·.2),
    londonHigh := london.map (·.1), londonLow := london.map (·.2),
    nyHigh := ny.map (·.1), nyLow := ny.map (·.2),
    manipulation :=
      if phase = Phase.MANIPULATION then
        "Liquidity sweep detected - await return to fair value"
      else "Monitoring for liquidity sweeps",
    strength := pd.2.2 }

/-- `calculateOBStrength` (lib/analysis.ts).  Both call sites guarantee a
nonzero setup size (the two setup bars have strictly negative or strictly
positive bodies), so the `none` branch of `jsDiv` is unreachable. -/
def calculateOBStrength (c1 c2 c3 : Candle) : OBStrength :=
  let moveSize := |c3.close - c3.open_|
  let setupSize := |c2.close - c2.open_| + |c1.close - c1.open_|
  let ratio := jsDiv moveSize setupSize
  if oGt ratio 2.5 then OBStrength.STRONG
  else if oGt ratio 1.5 then OBStrength.MODERATE
  else OBStrength.WEAK

/-- Blocks pushed at loop index `i` of `detectOrderBlocks` (window
`prev2 = candles[i-2]`, `prev1`, `curr`, `next = candles[i+1]`). -/
def obAt (i : Nat) (prev2 prev1 curr next : Candle) : List OrderBlock :=
  let _ := curr
  (if prev2.close < prev2.open_ ∧ prev1.close < prev1.open_ ∧ next.close > next.open_ then
    [{ id := "OB_BULL_" ++ toString i,
       type := Bias.BULLISH,
       top := max (max prev2.open_ prev2.close) (max prev1.open_ prev1.close),
       bottom := min (min prev2.open_ prev2.close) (min prev1.open_ prev1.close),
       bodyTop := max prev2.open_ prev2.close,
       bodyBottom := min prev2.open_ prev2.close,
       time := prev1.time,
       strength := calculateOBStrength prev2 prev1 next,
       touched := 0, broken := false }]
   else []) ++
  (if prev2.close > prev2.open_ ∧ prev1.close > prev1.open_ ∧ next.close < next.open_ then
    [{ id := "OB_BEAR_" ++ toString i,
       type := Bias.BEARISH,
       top := max (max prev2.open_ prev2.close) (max prev1.open_ prev1.close),
       bottom := min (min prev2.open_ prev2.close) (min prev1.open_ prev1.close),
       bodyTop := max prev2.open_ prev2.close,
       bodyBottom := min prev2.open_ prev2.close,
       time := prev1.time,
       strength := calculateOBStrength prev2 prev1 next,
       touched := 0, broken := false }]
   else [])

/-- The `for` loop of `detectOrderBlocks`: slides a 4-bar window whose
third bar is loop index `i`. -/
def obLoop : Nat → List Candle → List OrderBlock
  | i, prev2 :: rest =>
    (match rest with
     | prev1 :: curr :: next :: _ => obAt i prev2 prev1 curr next
     | _ => []) ++ obLoop (i + 1) rest
  | _, [] => []

/-- The `forEach` over blocks in `detectOrderBlocks`: mark touched and
broken against the latest bar. -/
def obFinalize (latest : Candle) (b : OrderBlock) : OrderBlock :=
  let touched :=
    if b.type = Bias.BULLISH then
      (if latest.low ≤ b.bottom ∧ latest.close > b.bottom then 1 else b.touched)
    else
      (if latest.high ≥ b.top ∧ latest.close < b.top then 1 else b.touched)
  let broken :=
    if b.type = Bias.BULLISH ∧ latest.close < b.bottom then true
    else if b.type = Bias.BEARISH ∧ latest.close > b.top then true
    else b.broken
  { b with touched := touched, broken := broken }

/-- `detectOrderBlocks` (lib/analysis.ts, lines 611-681): loop index runs
from 3, so the first window starts at bar 1. -/
def detectOrderBlocks (candles : List Candle) : List OrderBlock :=
  let blocks := obLoop 3 (candles.drop 1)
  let latest := jsLast candles
  (lastN (blocks.map (obFinalize latest)) 8).filter fun b => !b.broken

/-- Gaps pushed at loop index `i` of `detectFVGs` (triple
`prev = candles[i-1]`, `curr`, `next`). -/
def fvgAt (i : Nat) (prev curr next : Candle) : List FVG :=
  (if prev.high < next.low then
    [{ id := "FVG_BULL_" ++ toString i, type := Bias.BULLISH,
       top := next.low, bottom := prev.high, size := next.low - prev.high,
       midpoint := (next.low + prev.high) / 2, time := curr.time,
       mitigated := false }]
   else []) ++
  (if prev.low > next.high then
    [{ id := "FVG_BEAR_" ++ toString i, type := Bias.BEARISH,
       top := prev.low, bottom := next.high, size := prev.low - next.high,
       midpoint := (prev.low + next.high) / 2, time := curr.time,
       mitigated := false }]
   else [])

/-- The `for` loop of `detectFVGs`: slides a 3-bar window whose middle bar
is loop index `i`. -/
def fvgLoop : Nat → List Candle → List FVG
  | i, prev :: rest =>
    (match rest with
     | curr :: next :: _ => fvgAt i prev curr next
     | _ => []) ++ fvgLoop (i + 1) rest
  | _, [] => []

/-- The mitigation `forEach` of `detectFVGs`: only the LATEST bar's wick is
tested against the midpoint. -/
def fvgFinalize (latest : Candle) (fvg : FVG) : FVG :=
  let m1 := if fvg.type = Bias.BULLISH ∧ latest.low < fvg.midpoint then true else fvg.mitigated
  let m2 := if fvg.type = Bias.BEARISH ∧ latest.high > fvg.midpoint then true else m1
  { fvg with mitigated := m2 }

/-- `detectFVGs` (lib/analysis.ts, lines 696-747). -/
def detectFVGs (candles : List Candle) : List FVG :=
  let fvgs := fvgLoop 1 candles
  let latest := jsLast candles
  (lastN (fvgs.map (fvgFinalize latest)) 5).filter fun f => !f.mitigated

/-- `'HIGH' | 'LOW'` tag of a swing point. -/
inductive SwingType | HIGH | LOW
deriving DecidableEq, Repr

/-- Element of the array built by `findSwings` (lib/analysis.ts). -/
structure Swing where
  type : SwingType
  price : ℚ
  time : Int
deriving DecidableEq, Repr

/-- Swings contributed by an 11-bar window (`prev5`, `curr`, `next5`);
empty when fewer than 11 bars remain. -/
def swingAt (l : List Candle) : List Swing :=
  if l.length < 11 then []
  else
    match l.drop 5 with
    | curr :: _ =>
      let prev5 := l.take 5
      let next5 := (l.drop 6).take 5
      (if curr.high > listMax (prev5.map (·.high)) ∧
          curr.high > listMax (next5.map (·.high)) then
        [{ type := SwingType.HIGH, price := curr.high, time := curr.time }]
       else []) ++
      (if curr.low < listMin (prev5.map (·.low)) ∧
          curr.low < listMin (next5.map (·.low)) then
        [{ type := SwingType.LOW, price := curr.low, time := curr.time }]
       else [])
    | [] => []

/-- `findSwings` (lib/analysis.ts, lines 582-607): the loop from `i = 5` to
`length - 6` is the scan over all full 11-bar windows. -/
def findSwings : List Candle → List Swing
  | [] => []
  | c :: rest => swingAt (c :: rest) ++ findSwings rest

/-- Clustering loop of `clusterLevels` (lib/analysis.ts): each sorted price
joins the current cluster when within tolerance of the cluster's LAST
member, else starts a new cluster.  The current cluster is carried with its
most recent member at the head (member order inside a cluster does not
affect the average or the count). -/
def clusterAux (tol : ℚ) : List ℚ → List ℚ → List (List ℚ)
  | cur, [] => [cur]
  | cur, x :: rest =>
    match cur with
    | [] => clusterAux tol [x] rest
    | lastAdded :: _ =>
      if x - lastAdded < tol then clusterAux tol (x :: cur) rest
      else cur :: clusterAux tol [x] rest

/-- `clusterLevels` inside `detectSRLevels` (lib/analysis.ts): sort
ascending, cluster within the $15 tolerance, score by member count. -/
def clusterLevels (levels : List ℚ) (type : SRType) : List SRLevel :=
  match levels.mergeSort (fun a b => decide (a ≤ b)) with
  | [] => []
  | s0 :: srest =>
    (clusterAux 15 [s0] srest).map fun cluster =>
      let touches : ℚ := cluster.length
      { price := cluster.sum / (cluster.length : ℚ),
        type := type,
        touches := touches,
        strength := min (touches / 5) 1,
        broken := false,
        recentTest := touches > 0 }

/-- The broken/recent-test `forEach` of `detectSRLevels`. -/
def srFinalize (candleArray : List Candle) (latest : Candle) (level : SRLevel) : SRLevel :=
  let broken :=
    if level.type = SRType.SUPPORT ∧ latest.close < level.price then true
    else if level.type = SRType.RESISTANCE ∧ latest.close > level.price then true
    else level.broken
  let recent := lastN candleArray 10
  let wasTested := recent.any fun c =>
    decide (|c.low - level.price| < 10 ∨ |c.high - level.price| < 10)
  { level with broken := broken, recentTest := wasTested }

/-- `detectSRLevels` (lib/analysis.ts, lines 751-836).  Its inline swing
scan is literally the `findSwings` loop, so the swing prices are read off
`findSwings`; the final sort is by descending strength (stable, as JS
`Array.prototype.sort`). -/
def detectSRLevels (candleArray : List Candle) : List SRLevel :=
  let swings := findSwings candleArray
  let swingHighs := (swings.filter fun s => s.type = SwingType.HIGH).map (·.price)
  let swingLows := (swings.filter fun s => s.type = SwingType.LOW).map (·.price)
  let supports := clusterLevels swingLows SRType.SUPPORT
  let resistances := clusterLevels swingHighs SRType.RESISTANCE
  let latest := jsLast candleArray
  let allLevels := (supports ++ resistances).map (srFinalize candleArray latest)
  ((allLevels.filter fun l => !l.broken).mergeSort
    (fun a b => decide (b.strength ≤ a.strength))).take 6

/-- The zone built from the `i`-th recent swing in `detectLiquidityZones`. -/
def lzOfSwing (i : Nat) (swing : Swing) : LiquidityZone :=
  if swing.type = SwingType.HIGH then
    { id := "LL_" ++ toString i, type := "SELL_STOPS", price := swing.price,
      strength := 100 - (i : ℚ) * 10, swept := false, time := swing.time }
  else
    { id := "HL_" ++ toString i, type := "BUY_STOPS", price := swing.price,
      strength := 100 - (i : ℚ) * 10, swept := false, time := swing.time }

/-- The sweep-check `forEach` of `detectLiquidityZones`. -/
def lzFinalize (latest : Candle) (zone : LiquidityZone) : LiquidityZone :=
  let s1 := if zone.type = "SELL_STOPS" ∧ latest.high > zone.price then true else zone.swept
  let s2 := if zone.type = "BUY_STOPS" ∧ latest.low < zone.price then true else s1
  { zone with swept := s2 }

/-- `detectLiquidityZones` (lib/analysis.ts, lines 536-580). -/
def detectLiquidityZones (candles : List Candle) : List LiquidityZone :=
  let swings := findSwings candles
  let recentSwings := lastN swings 6
  let zones := recentSwings.enum.map fun p => lzOfSwing p.1 p.2
  let latest := jsLast candles
  zones.map (lzFinalize latest)

/-- The `{line, signal, histogram}` MACD object; only `histogram` is read by
`buildSignal`. -/
structure MACDObj where
  line : ℚ
  signal : ℚ
  histogram : ℚ
deriving DecidableEq, Repr

/-- The `{upper, middle, lower}` Bollinger object; passed to `buildSignal`
but never read there. -/
structure BBandsObj where
  upper : ℚ
  middle : ℚ
  lower : ℚ
deriving DecidableEq, Repr

/-- `buildSignal` (lib/analysis.ts, lines 840-991).  Mutable locals
(`action`, `baseConfidence`, `confluences`, `patternScore`) are threaded as
a tuple through the source's sequential blocks.  `Math.round` is Mathlib's
`round` (both compute ⌊x + 1/2⌋). -/
def buildSignal (candles : List Candle) (rsi : ℚ) (macd : MACDObj)
    (bbands : BBandsObj) (atr : ℚ) (amd : AMDPhase)
    (orderBlocks : List OrderBlock) (fvgs : List FVG)
    (srLevels : List SRLevel) : GoldSignal :=
  let _ := bbands
  let latest := jsLast candles
  let price := latest.close
  -- RSI-based signals
  let st0 : Action × ℚ × List String :=
    if rsi < 30 then
      (Action.BUY, 65, ["RSI oversold (<30) - bullish reversal opportunity"])
    else if rsi > 70 then
      (Action.SELL, 65, ["RSI overbought (>70) - bearish reversal risk"])
    else if rsi < 40 ∧ rsi ≥ 30 then
      (if macd.histogram > 0 then
        (Action.BUY, 60, ["RSI recovering from oversold + MACD bullish"])
       else (Action.WAIT, 50, []))
    else if rsi > 60 ∧ rsi ≤ 70 then
      (if macd.histogram < 0 then
        (Action.SELL, 60, ["RSI declining from overbought + MACD bearish"])
       else (Action.WAIT, 50, []))
    else (Action.WAIT, 50, [])
  -- AMD bias override
  let st1 : Action × ℚ × List String :=
    if amd.bias ≠ Bias.NEUTRAL ∧ st0.1 = Action.WAIT then
      if amd.bias = Bias.BULLISH ∧ rsi < 55 then
        (Action.BUY, 55, st0.2.2 ++ ["AMD " ++ amd.phase.str ++ " with bullish bias"])
      else if amd.bias = Bias.BEARISH ∧ rsi > 45 then
        (Action.SELL, 55, st0.2.2 ++ ["AMD " ++ amd.phase.str ++ " with bearish bias"])
      else st0
    else st0
  let action := st1.1
  -- Check order blocks for entry zones
  let relevantOBs := orderBlocks.filter fun ob =>
    (action = Action.BUY ∧ ob.type = Bias.BULLISH) ∨
    (action = Action.SELL ∧ ob.type = Bias.BEARISH)
  let strongOBs := relevantOBs.filter fun ob => ob.strength = OBStrength.STRONG
  let st2 : ℚ × ℚ × List String :=
    if relevantOBs.length > 0 then
      if strongOBs.length > 0 then
        (st1.2.1 + 10, 25,
         st1.2.2 ++ [toString strongOBs.length ++ " strong order block(s) aligned"])
      else
        (st1.2.1 + 5, 15,
         st1.2.2 ++ [toString relevantOBs.length ++ " order block(s) in zone"])
    else (st1.2.1, 0, st1.2.2)
  -- Check FVGs
  let relevantFVGs := fvgs.filter fun fvg =>
    (action = Action.BUY ∧ fvg.type = Bias.BULLISH) ∨
    (action = Action.SELL ∧ fvg.type = Bias.BEARISH)
  let st3 : ℚ × ℚ × List String :=
    if relevantFVGs.length > 0 then
      (st2.1 + 5, st2.2.1 + 10,
       st2.2.2 ++ [toString relevantFVGs.length ++ " FVG(s) providing entry context"])
    else st2
  -- Check S&R alignment
  let relevantSR := srLevels.filter fun sr =>
    (action = Action.BUY ∧ sr.type.isSupport) ∨
    (action = Action.SELL ∧ sr.type.isResistance)
  let st4 : ℚ × ℚ × List String :=
    if relevantSR.length > 0 then
      (st3.1 + (relevantSR.length : ℚ) * 5, st3.2.1 + (relevantSR.length : ℚ) * 10,
       st3.2.2 ++ [toString relevantSR.length ++ " S/R level(s) supporting direction"])
    else st3
  let baseConfidence := st4.1
  let patternScore := st4.2.1
  let confluences := st4.2.2
  -- AMD strength adjustment and weighted confidence
  let mtaScore := amd.strength
  let confidence :=
    min (baseConfidence + min (mtaScore * 0.2) 15 + min (patternScore * 0.3) 15) 95
  -- Entry, SL, TP ladder
  let entry := price
  let slDistance := atr * 1.5
  let sl := if action = Action.BUY then price - slDistance else price + slDistance
  let tp1 := if action = Action.BUY then price + slDistance * 2 else price - slDistance * 2
  let tp2 := if action = Action.BUY then price + slDistance * 3 else price - slDistance * 3
  let tp3 := if action = Action.BUY then price + slDistance * 4 else price - slDistance * 4
  let entryZone : ℚ × ℚ :=
    if action = Action.BUY then (price - atr * 0.5, price + atr * 0.5)
    else (price - atr * 0.5, price + atr * 0.5)
  { action := action,
    confidence := (round confidence : ℤ),
    entry := entry,
    entryZone := entryZone,
    stopLoss := sl,
    tp1 := tp1, tp2 := tp2, tp3 := tp3,
    rr1 := jsDiv |tp1 - entry| |entry - sl|,
    rr2 := jsDiv |tp2 - entry| |entry - sl|,
    rr3 := jsDiv |tp3 - entry| |entry - sl|,
    pips := { sl := |entry - sl| * 10, tp1 := |tp1 - entry| * 10,
              tp2 := |tp2 - entry| * 10, tp3 := |tp3 - entry| * 10 },
    confluences := confluences,
    invalidation :=
      if action = Action.BUY then "Price below $" ++ jsToFixed2 sl
      else "Price above $" ++ jsToFixed2 sl,
    sessionBias := amd.bias.str,
    mtaScore := mtaScore,
    patternScore := patternScore,
    liquidityScore := 0,
    overallScore := (round confidence : ℤ) }

/-- `detectBullishEngulfing` (lib/priceaction.ts).  In the taken branch
`prev.close < prev.open`, so `prevBody > 0` and the ratio division is
finite; it is embedded as plain rational division. -/
def detectBullishEngulfing (prev current : Candle) : Option CandlestickPattern :=
  let prevBody := |prev.close - prev.open_|
  let currentBody := |current.close - current.open_|
  if prev.close < prev.open_ ∧ current.close > current.open_ then
    if current.open_ ≤ prev.close ∧ current.close ≥ prev.open_ then
      let engulfmentRatio := currentBody / prevBody
      let strength :=
        if engulfmentRatio > 2 then CsStrength.strong
        else if engulfmentRatio > 1.5 then CsStrength.moderate
        else CsStrength.weak
      some { name := "Bullish Engulfing", type := CsType.bullish,
             strength := strength, index := 0,
             confidence := min 95 (60 + engulfmentRatio * 15),
             description := "Strong bullish reversal" }
    else none
  else none

/-- `detectBearishEngulfing` (lib/priceaction.ts). -/
def detectBearishEngulfing (prev current : Candle) : Option CandlestickPattern :=
  let prevBody := |prev.close - prev.open_|
  let currentBody := |current.close - current.open_|
  if prev.close > prev.open_ ∧ current.close < current.open_ then
    if current.open_ ≥ prev.close ∧ current.close ≤ prev.open_ then
      let engulfmentRatio := currentBody / prevBody
      let strength :=
        if engulfmentRatio > 2 then CsStrength.strong
        else if engulfmentRatio > 1.5 then CsStrength.moderate
        else CsStrength.weak
      some { name := "Bearish Engulfing", type := CsType.bearish,
             strength := strength, index := 0,
             confidence := min 95 (60 + engulfmentRatio * 15),
             description := "Strong bearish reversal" }
    else none
  else none

/-- `detectHammer` (lib/priceaction.ts).  For candles satisfying the OHLC
invariant (`high ≥ max(open,close)`) the taken branch forces `body > 0`, so
the wick/body division is finite. -/
def detectHammer (candle : Candle) : Option CandlestickPattern :=
  let body := |candle.close - candle.open_|
  let lowerWick := min candle.open_ candle.close - candle.low
  let upperWick := candle.high - max candle.open_ candle.close
  let range := candle.high - candle.low
  if lowerWick > body * 2 ∧ upperWick < body * 0.5 ∧ body > range * 0.2 then
    some { name := "Hammer", type := CsType.bullish,
           strength := if lowerWick > body * 3 then CsStrength.strong else CsStrength.moderate,
           index := 0,
           confidence := min 85 (65 + lowerWick / body * 5),
           description := "Bullish reversal - strong lower wick rejection" }
  else none

/-- `detectShootingStar` (lib/priceaction.ts). -/
def detectShootingStar (candle : Candle) : Option CandlestickPattern :=
  let body := |candle.close - candle.open_|
  let upperWick := candle.high - max candle.open_ candle.close
  let lowerWick := min candle.open_ candle.close - candle.low
  let range := candle.high - candle.low
  if upperWick > body * 2 ∧ lowerWick < body * 0.5 ∧ body > range * 0.2 then
    some { name := "Shooting Star", type := CsType.bearish,
           strength := if upperWick > body * 3 then CsStrength.strong else CsStrength.moderate,
           index := 0,
           confidence := min 85 (65 + upperWick / body * 5),
           description := "Bearish reversal - strong upper wick rejection" }
  else none

/-- `detectDoji` (lib/priceaction.ts). -/
def detectDoji (candle : Candle) : Option CandlestickPattern :=
  let body := |candle.close - candle.open_|
  let range := candle.high - candle.low
  if body < range * 0.1 ∧ range > 0 then
    some { name := "Doji", type := CsType.neutral, strength := CsStrength.moderate,
           index := 0, confidence := 70,
           description := "Market indecision - potential reversal zone" }
  else none

/-- `detectMorningStar` (lib/priceaction.ts). -/
def detectMorningStar (first second third : Candle) : Option CandlestickPattern :=
  let firstBearish := first.close < first.open_
  let secondSmall := |second.close - second.open_| < |first.close - first.open_| * 0.5
  let thirdBullish := third.close > third.open_ ∧
    third.close > (first.open_ + first.close) / 2
  if firstBearish ∧ secondSmall ∧ thirdBullish then
    some { name := "Morning Star", type := CsType.bullish,
           strength := if third.close > first.open_ then CsStrength.strong else CsStrength.moderate,
           index := 0, confidence := 85,
           description := "Strong bullish reversal pattern - 3 candle formation" }
  else none

/-- `detectEveningStar` (lib/priceaction.ts). -/
def detectEveningStar (first second third : Candle) : Option CandlestickPattern :=
  let firstBullish := first.close > first.open_
  let secondSmall := |second.close - second.open_| < |first.close - first.open_| * 0.5
  let thirdBearish := third.close < third.open_ ∧
    third.close < (first.open_ + first.close) / 2
  if firstBullish ∧ secondSmall ∧ thirdBearish then
    some { name := "Evening Star", type := CsType.bearish,
           strength := if third.close < first.open_ then CsStrength.strong else CsStrength.moderate,
           index := 0, confidence := 85,
           description := "Strong bearish reversal pattern - 3 candle formation" }
  else none

/-- `detectPinBar` (lib/priceaction.ts). -/
def detectPinBar (candle : Candle) : Option CandlestickPattern :=
  let body := |candle.close - candle.open_|
  let upperWick := candle.high - max candle.open_ candle.close
  let lowerWick := min candle.open_ candle.close - candle.low
  let totalRange := candle.high - candle.low
  if lowerWick > totalRange * 0.6 ∧ body < totalRange * 0.3 then
    some { name := "Pin Bar (Bullish)", type := CsType.bullish,
           strength := CsStrength.strong, index := 0, confidence := 80,
           description := "Bullish pin bar - strong rejection from lows" }
  else if upperWick > totalRange * 0.6 ∧ body < totalRange * 0.3 then
    some { name := "Pin Bar (Bearish)", type := CsType.bearish,
           strength := CsStrength.strong, index := 0, confidence := 80,
           description := "Bearish pin bar - strong rejection from highs" }
  else none

/-- The patterns pushed at loop index `i` of `detectCandlestickPatterns`,
in source order; each sub-detector's `index: 0` placeholder is replaced by
the spread `{...pattern, index: i}`. -/
def csAt (i : Nat) (prev2 prev current : Candle) : List CandlestickPattern :=
  ([detectBullishEngulfing prev current,
    detectBearishEngulfing prev current,
    detectHammer current,
    detectShootingStar current,
    detectDoji current,
    detectMorningStar prev2 prev current,
    detectEveningStar prev2 prev current,
    detectPinBar current].filterMap id).map fun p => { p with index := i }

/-- The `for` loop of `detectCandlestickPatterns` over indices `i ≥ 2`. -/
def csLoop : Nat → List Candle → List CandlestickPattern
  | i, prev2 :: rest =>
    (match rest with
     | prev :: current :: _ => csAt i prev2 prev current
     | _ => []) ++ csLoop (i + 1) rest
  | _, [] => []

/-- `detectCandlestickPatterns` (lib/priceaction.ts, lines 55-98). -/
def detectCandlestickPatterns (candles : List Candle) : List CandlestickPattern :=
  if candles.length < 3 then [] else csLoop 2 candles

/-- `analyzeWicks` (lib/priceaction.ts, lines 279-324); the ratio divisions
are guarded by the source's `totalRange > 0` ternaries. -/
def analyzeWicks (candle : Candle) : WickAnalysis :=
  let body := |candle.close - candle.open_|
  let upperWick := candle.high - max candle.open_ candle.close
  let lowerWick := min candle.open_ candle.close - candle.low
  let totalRange := candle.high - candle.low
  let upperWickRatio := if totalRange > 0 then upperWick / totalRange else 0
  let lowerWickRatio := if totalRange > 0 then lowerWick / totalRange else 0
  let bodyRatio := if totalRange > 0 then body / totalRange else 0
  let srs : CsType × RejType × ℚ :=
    if lowerWickRatio > 0.5 ∧ upperWickRatio < 0.2 then
      (CsType.bullish, RejType.lower, min 100 (lowerWickRatio * 150))
    else if upperWickRatio > 0.5 ∧ lowerWickRatio < 0.2 then
      (CsType.bearish, RejType.upper, min 100 (upperWickRatio * 150))
    else if candle.close > candle.open_ ∧ bodyRatio > 0.6 then
      (CsType.bullish, RejType.noRej, bodyRatio * 70)
    else if candle.close < candle.open_ ∧ bodyRatio > 0.6 then
      (CsType.bearish, RejType.noRej, bodyRatio * 70)
    else (CsType.neutral, RejType.noRej, 0)
  { upperWickRatio := upperWickRatio,
    lowerWickRatio := lowerWickRatio,
    bodyRatio := bodyRatio,
    sentiment := srs.1,
    rejectionType := srs.2.1,
    significance := srs.2.2 }

/-- `detectTriangle` (lib/priceaction.ts). -/
def detectTriangle (candles : List Candle) : Option ChartPattern :=
  let len := candles.length
  if len < 20 then none
  else
    let recentCandles := lastN candles 20
    let highs := recentCandles.map (·.high)
    let lows := recentCandles.map (·.low)
    let highestHigh := listMax highs
    let lowestLow := listMin lows
    let range := highestHigh - lowestLow
    let firstHalfRange := listMax (highs.take 10) - listMin (lows.take 10)
    let secondHalfRange := listMax (highs.drop 10) - listMin (lows.drop 10)
    if secondHalfRange < firstHalfRange * 0.7 then
      let currentPrice := (jsLast recentCandles).close
      let direction :=
        if currentPrice > (highestHigh + lowestLow) / 2 then CsType.bullish
        else CsType.bearish
      some { name := "Symmetrical Triangle", type := CpKind.continuation,
             direction := direction, startIndex := len - 20, endIndex := len - 1,
             breakoutLevel := if direction = CsType.bullish then highestHigh else lowestLow,
             targetLevel :=
               if direction = CsType.bullish then highestHigh + range else lowestLow - range,
             confidence := 75 }
    else none

/-- `detectWedge` (lib/priceaction.ts). -/
def detectWedge (candles : List Candle) : Option ChartPattern :=
  let len := candles.length
  if len < 20 then none
  else
    let recentCandles := lastN candles 20
    let closes := recentCandles.map (·.close)
    let firstClose := closes.headD 0
    let lastClose := (closes.getLast?).getD 0
    let rising := lastClose > firstClose
    let highs := recentCandles.map (·.high)
    let lows := recentCandles.map (·.low)
    let range := listMax highs - listMin lows
    let firstHalfRange := listMax (highs.take 10) - listMin (lows.take 10)
    let secondHalfRange := listMax (highs.drop 10) - listMin (lows.drop 10)
    if secondHalfRange < firstHalfRange * 0.6 then
      some { name := if rising then "Rising Wedge" else "Falling Wedge",
             type := CpKind.reversal,
             direction := if rising then CsType.bearish else CsType.bullish,
             startIndex := len - 20, endIndex := len - 1,
             breakoutLevel := if rising then listMin lows else listMax highs,
             targetLevel :=
               if rising then listMin lows - range else listMax highs + range,
             confidence := 72 }
    else none

/-- `candles.slice(-25, -15)` (both indices negative, clamped at 0). -/
def poleSlice (candles : List Candle) : List Candle :=
  let len := candles.length
  (candles.drop (len - 25)).take ((len - 15) - (len - 25))

/-- `detectFlag` (lib/priceaction.ts).  The `avgBody` division is by the
pole length, which the guard forces to be ≥ 10. -/
def detectFlag (candles : List Candle) : Option ChartPattern :=
  let len := candles.length
  if len < 15 then none
  else
    let recentCandles := lastN candles 15
    let closes := recentCandles.map (·.close)
    let poleCandles := poleSlice candles
    if poleCandles.length < 10 then none
    else
      let poleStart := ((poleCandles.head?).getD dummyCandle).close
      let poleEnd := ((poleCandles.getLast?).getD dummyCandle).close
      let poleMove := |poleEnd - poleStart|
      let avgBody :=
        (poleCandles.map fun c => |c.close - c.open_|).sum / (poleCandles.length : ℚ)
      if poleMove < avgBody * 5 then none
      else
        let flagRange := listMax closes - listMin closes
        let bullish := poleEnd > poleStart
        if flagRange < poleMove * 0.4 then
          some { name := if bullish then "Bull Flag" else "Bear Flag",
                 type := CpKind.continuation,
                 direction := if bullish then CsType.bullish else CsType.bearish,
                 startIndex := len - 15, endIndex := len - 1,
                 breakoutLevel := if bullish then listMax closes else listMin closes,
                 targetLevel := if bullish then poleEnd + poleMove else poleEnd - poleMove,
                 confidence := 78 }
        else none

/-- `detectChartPatterns` (lib/priceaction.ts, lines 327-344). -/
def detectChartPatterns (candles : List Candle) : List ChartPattern :=
  if candles.length < 20 then []
  else [detectTriangle candles, detectWedge candles, detectFlag candles].filterMap id

/-- The candlestick scoring `forEach` of `generatePriceActionSignal`:
accumulates (bullishScore, bearishScore, confluences). -/
def paScoreStep (acc : ℚ × ℚ × List String) (pattern : CandlestickPattern) :
    ℚ × ℚ × List String :=
  let mult : ℚ := if pattern.strength = CsStrength.strong then 1.5 else 1
  match pattern.type with
  | CsType.bullish =>
    (acc.1 + pattern.confidence * mult, acc.2.1,
     acc.2.2 ++ [pattern.name ++ " (" ++ jsToFixed0 pattern.confidence ++ "%)"])
  | CsType.bearish =>
    (acc.1, acc.2.1 + pattern.confidence * mult,
     acc.2.2 ++ [pattern.name ++ " (" ++ jsToFixed0 pattern.confidence ++ "%)"])
  | CsType.neutral => acc

/-- `generatePriceActionSignal` (lib/priceaction.ts, lines 457-548). -/
def generatePriceActionSignal (candles : List Candle) (currentPrice : ℚ)
    (atr : ℚ) : PriceActionSignal :=
  let patterns := detectCandlestickPatterns candles
  let recentPatterns := patterns.filter fun p => p.index ≥ candles.length - 3
  let chartPatterns := detectChartPatterns candles
  let lastCandle := jsLast candles
  let wickAnalysis := analyzeWicks lastCandle
  let acc0 := recentPatterns.foldl paScoreStep (0, 0, [])
  let acc1 : ℚ × ℚ × List String :=
    if wickAnalysis.significance > 60 then
      if wickAnalysis.sentiment = CsType.bullish then
        (acc0.1 + wickAnalysis.significance, acc0.2.1,
         acc0.2.2 ++ ["Bullish wick rejection (" ++ jsToFixed0 wickAnalysis.significance ++ "%)"])
      else if wickAnalysis.sentiment = CsType.bearish then
        (acc0.1, acc0.2.1 + wickAnalysis.significance,
         acc0.2.2 ++ ["Bearish wick rejection (" ++ jsToFixed0 wickAnalysis.significance ++ "%)"])
      else acc0
    else acc0
  let acc2 : ℚ × ℚ × List String :=
    match chartPatterns.head? with
    | some mainPattern =>
      if mainPattern.direction = CsType.bullish then
        (acc1.1 + mainPattern.confidence, acc1.2.1,
         acc1.2.2 ++ [mainPattern.name ++ " breakout"])
      else
        (acc1.1, acc1.2.1 + mainPattern.confidence,
         acc1.2.2 ++ [mainPattern.name ++ " breakdown"])
    | none => acc1
  let bullishScore := acc2.1
  let bearishScore := acc2.2.1
  let confluences := acc2.2.2
  let minConfidence : ℚ := 65
  let sig : Action × ℚ × ℚ × ℚ × ℚ × ℚ :=
    if bullishScore > bearishScore ∧ bullishScore > minConfidence then
      (Action.BUY, min 95 bullishScore, currentPrice,
       currentPrice - atr * 1.5, currentPrice + atr * 2, currentPrice + atr * 3.5)
    else if bearishScore > bullishScore ∧ bearishScore > minConfidence then
      (Action.SELL, min 95 bearishScore, currentPrice,
       currentPrice + atr * 1.5, currentPrice - atr * 2, currentPrice - atr * 3.5)
    else
      (Action.WAIT, 0, currentPrice, currentPrice, currentPrice, currentPrice)
  let entry := sig.2.2.1
  let stopLoss := sig.2.2.2.1
  let takeProfit1 := sig.2.2.2.2.1
  let takeProfit2 := sig.2.2.2.2.2
  { action := sig.1,
    confidence := sig.2.1,
    entry := entry,
    stopLoss := stopLoss,
    takeProfit1 := takeProfit1,
    takeProfit2 := takeProfit2,
    riskReward := jsDiv |takeProfit1 - entry| |stopLoss - entry|,
    patterns := recentPatterns,
    chartPattern := chartPatterns.head?,
    wickAnalysis := wickAnalysis,
    confluences := confluences }

/-! Concrete inputs used to witness or refute claims, and the invariants
the claims speak about. -/

/-- Confidence invariant of the spec: confidence within [0,95], and at
least 20 whenever the action is directional. -/
def ConfInv (s : HybridSignal) : Prop :=
  0 ≤ s.confidence ∧ s.confidence ≤ 95 ∧
    (s.action ≠ Action.WAIT → 20 ≤ s.confidence)

/-- The R:R ladder is defined (no NaN), positive and strictly
increasing. -/
def rrIncreasing (s : GoldSignal) : Prop :=
  ∃ a b c, s.rr1 = some a ∧ s.rr2 = some b ∧ s.rr3 = some c ∧
    0 < a ∧ a < b ∧ b < c

/-- The flat/no-volatility scenario: 50 identical OHLC bars at 2000. -/
def flatCandles : List Candle :=
  (List.range 50).map fun i =>
    { time := i, open_ := 2000, high := 2000, low := 2000, close := 2000, volume := 0 }

/-- All-zero MACD object (the documented neutral fallback). -/
def neutralMacd : MACDObj := { line := 0, signal := 0, histogram := 0 }

/-- Neutral Bollinger fallback (price plus/minus a constant). -/
def neutralBB : BBandsObj := { upper := 2050, middle := 2000, lower := 1950 }

/-- Neutral wick analysis of a zero-range bar. -/
def neutralWick : WickAnalysis :=
  { upperWickRatio := 0, lowerWickRatio := 0, bodyRatio := 0,
    sentiment := CsType.neutral, rejectionType := RejType.noRej, significance := 0 }

/-- A transition-phase regime record with neutral bias. -/
def amdT : AMDPhase :=
  { phase := Phase.TRANSITION, description := "transition", bias := Bias.NEUTRAL,
    sessionHigh := 2010, sessionLow := 1990, asiaHigh := none, asiaLow := none,
    londonHigh := none, londonLow := none, nyHigh := none, nyLow := none,
    manipulation := "monitoring", strength := 40 }

/-- Primary-builder run on the flat scenario (RSI 50, zero MACD, the
documented ATR fallback 15, no zones). -/
def flatSignal : GoldSignal :=
  buildSignal flatCandles 50 neutralMacd neutralBB 15 (detectAMD flatCandles "1h") [] [] []

/-- Secondary-builder run on the flat scenario. -/
def flatPA : PriceActionSignal := generatePriceActionSignal flatCandles 2000 15

/-- A concrete ICT BUY signal at confidence 70. -/
def ictBuy70 : GoldSignal :=
  { action := Action.BUY, confidence := 70, entry := 2000,
    entryZone := (1995, 2005), stopLoss := 1990, tp1 := 2010, tp2 := 2020,
    tp3 := 2030, rr1 := some 1, rr2 := some 2, rr3 := some 3,
    pips := { sl := 100, tp1 := 100, tp2 := 200, tp3 := 300 },
    confluences := ["RSI oversold (<30) - bullish reversal opportunity"],
    invalidation := "Price below $1990", sessionBias := "BULLISH",
    mtaScore := 40, patternScore := 0, liquidityScore := 0, overallScore := 70 }

/-- A concrete price-action BUY signal at confidence 70. -/
def paBuy70 : PriceActionSignal :=
  { action := Action.BUY, confidence := 70, entry := 2002, stopLoss := 1996,
    takeProfit1 := 2014, takeProfit2 := 2026, riskReward := some 2,
    patterns := [], chartPattern := none, wickAnalysis := neutralWick,
    confluences := ["Bullish wick rejection (75%)"] }

/-- A concrete price-action SELL signal at confidence 70. -/
def paSell70 : PriceActionSignal :=
  { paBuy70 with
    action := Action.SELL, stopLoss := 2008,
    takeProfit1 := 1990, takeProfit2 := 1978 }

/-- A concrete price-action WAIT signal (confidence 0, as the secondary
builder emits when neither score clears the threshold). -/
def paWait : PriceActionSignal :=
  { action := Action.WAIT, confidence := 0, entry := 2000, stopLoss := 2000,
    takeProfit1 := 2000, takeProfit2 := 2000, riskReward := none,
    patterns := [], chartPattern := none, wickAnalysis := neutralWick,
    confluences := [] }

/-- A fused signal that is already WAIT at confidence 58 (what
`combineSignals` returns for a both-WAIT pair whose ICT leg scored 58). -/
def hybridWait58 : HybridSignal :=
  combineSignals { ictBuy70 with action := Action.WAIT, confidence := 58 } paWait 15

/-- A fused directional signal at confidence 70. -/
def hybridBuy70 : HybridSignal := combineSignals ictBuy70 paWait 15

/-- Modifier context whose news-risk assessment says avoid, with every
other input neutral. -/
def mAvoid : ModifierInput :=
  { spreadWide := false, spread := none, weeklyPos := none, avoid := true,
    newsBias := NewsBias.NEUTRAL }

/-- Modifier context with nothing active. -/
def mNeutral : ModifierInput :=
  { spreadWide := false, spread := none, weeklyPos := none, avoid := false,
    newsBias := NewsBias.NEUTRAL }

/-- Primary-builder run forced directional (RSI 25) with ATR 2 on the flat
candles and no zones: exposes the take-profit ladder spacing. -/
def buySignalAtr2 : GoldSignal :=
  buildSignal flatCandles 25 neutralMacd neutralBB 2 amdT [] [] []

/-- The same run with ATR 0: exposes the undefined R:R ratios. -/
def buySignalAtr0 : GoldSignal :=
  buildSignal flatCandles 25 neutralMacd neutralBB 0 amdT [] [] []

/-- Five bars: a bullish three-bar gap (bars 0-2, midpoint 15), an interior
bar (index 3) whose wick crosses the midpoint, and a latest bar that stays
above it. -/
def gapCandles : List Candle :=
  [ { time := 0, open_ := 6, high := 10, low := 5, close := 9, volume := 0 },
    { time := 1, open_ := 12, high := 18, low := 11, close := 17, volume := 0 },
    { time := 2, open_ := 21, high := 25, low := 20, close := 24, volume := 0 },
    { time := 3, open_ := 16, high := 22, low := 12, close := 21, volume := 0 },
    { time := 4, open_ := 18, high := 24, low := 16, close := 20, volume := 0 } ]

/-- The gap `detectFVGs` returns on `gapCandles`. -/
def gapBull : FVG :=
  { id := "FVG_BULL_1", type := Bias.BULLISH, top := 20, bottom := 10,
    size := 10, midpoint := 15, time := 1, mitigated := false }

/-- `ictBuy70` with its action switched to WAIT. -/
def ictWait70 : GoldSignal := { ictBuy70 with action := Action.WAIT }

/-- A two-bar series, below every detector's minimum window. -/
def twoCandles : List Candle :=
  [ { time := 0, open_ := 2000, high := 2005, low := 1995, close := 2002, volume := 1 },
    { time := 1, open_ := 2002, high := 2008, low := 1999, close := 2006, volume := 1 } ]

/-! Helper lemmas about the modifier pipeline. -/

theorem applySpread_action (m : ModifierInput) (s : HybridSignal) :
    (applySpread m s).action = s.action := by
  unfold applySpread; split_ifs <;> rfl

theorem weeklyBuyHigh_action (pos : ℚ) (s : HybridSignal) :
    (weeklyBuyHigh pos s).action = s.action := by
  unfold weeklyBuyHigh; split_ifs <;> rfl

theorem weeklySellLow_action (pos : ℚ) (s : HybridSignal) :
    (weeklySellLow pos s).action = s.action := by
  unfold weeklySellLow; split_ifs <;> rfl

theorem weeklyBuyLow_action (pos : ℚ) (s : HybridSignal) :
    (weeklyBuyLow pos s).action = s.action := by
  unfold weeklyBuyLow; split_ifs <;> rfl

theorem weeklySellHigh_action (pos : ℚ) (s : HybridSignal) :
    (weeklySellHigh pos s).action = s.action := by
  unfold weeklySellHigh; split_ifs <;> rfl

theorem applyWeekly_action (m : ModifierInput) (s : HybridSignal) :
    (applyWeekly m s).action = s.action := by
  unfold applyWeekly
  cases m.weeklyPos with
  | none => rfl
  | some pos =>
    rw [weeklySellHigh_action, weeklyBuyLow_action, weeklySellLow_action,
        weeklyBuyHigh_action]

theorem applyFundamental_action (m : ModifierInput) (s : HybridSignal) :
    (applyFundamental m s).action = s.action := by
  unfold applyFundamental; split_ifs <;> rfl

theorem applyNews_action_avoid (m : ModifierInput) (s : HybridSignal)
    (h : m.avoid = true) : (applyNews m s).action = Action.WAIT := by
  unfold applyNews
  split_ifs with hc
  · rfl
  · have : s.action = Action.WAIT := by
      by_contra hw
      exact hc ⟨h, hw⟩
    exact this

theorem applyFundamental_of_wait (m : ModifierInput) (s : HybridSignal)
    (h : s.action = Action.WAIT) : applyFundamental m s = s := by
  unfold applyFundamental
  split_ifs with h1 h2 h3
  · rw [h] at h1; exact absurd h1.2 (by decide)
  · rw [h] at h2; exact absurd h2.2 (by decide)
  · rw [h] at h3
    rcases h3 with h3 | h3 <;> exact absurd h3.2 (by decide)
  · rfl

/-- C1 (amended): when the news-risk assessment says avoid, the final
action is WAIT; and when the fused action was directional, the news
override caps the final confidence at 25 — the fundamental-bias modifier
that runs afterwards cannot restore a directional action or raise the
confidence, because all of its branches require a BUY or SELL action. -/
theorem c1_news_override (s : HybridSignal) (m : ModifierInput)
    (h : m.avoid = true) :
    (applyModifiers m s).action = Action.WAIT ∧
      (s.action ≠ Action.WAIT → (applyModifiers m s).confidence ≤ 25) := by
  unfold applyModifiers
  have ha2 : (applyWeekly m (applySpread m s)).action = s.action := by
    rw [applyWeekly_action, applySpread_action]
  constructor
  · rw [applyFundamental_action, applyNews_action_avoid _ _ h]
  · intro hd
    have hd2 : (applyWeekly m (applySpread m s)).action ≠ Action.WAIT := by
      rw [ha2]; exact hd
    have hnews : applyNews m (applyWeekly m (applySpread m s)) =
        { applyWeekly m (applySpread m s) with
          action := Action.WAIT,
          confidence := min (applyWeekly m (applySpread m s)).confidence 25,
          confluences := (applyWeekly m (applySpread m s)).confluences ++
            ["BLOCKED: High-impact news imminent - protect capital"] } := by
      unfold applyNews
      rw [if_pos ⟨h, hd2⟩]
    rw [hnews, applyFundamental_of_wait _ _ rfl]
    exact min_le_right _ _

/-- Witness for C1: a directional fused BUY signal at confidence 70 under
an avoid-flagged news context ends as WAIT with confidence ≤ 25. -/
theorem c1_news_override_witness :
    (applyModifiers mAvoid hybridBuy70).action = Action.WAIT ∧
      (applyModifiers mAvoid hybridBuy70).confidence ≤ 25 := by
  have h := c1_news_override hybridBuy70 mAvoid rfl
  exact ⟨h.1, h.2 (by decide)⟩

/-- Counterexample to C1 as stated: when the fused signal is already WAIT
(here at confidence 58, as fusion yields for a both-WAIT pair whose ICT leg
scored 58), the news override's `action !== 'WAIT'` guard does not fire, so
with avoid = true the final confidence stays 58 > 25. -/
theorem c1_counterexample :
    (applyModifiers mAvoid hybridWait58).action = Action.WAIT ∧
      (applyModifiers mAvoid hybridWait58).confidence = 58 ∧
      ¬((applyModifiers mAvoid hybridWait58).confidence ≤ 25) := by
  decide

/-! Preservation of the confidence invariant through each pipeline stage. -/

theorem confInv_applySpread (m : ModifierInput) (s : HybridSignal)
    (h : ConfInv s) : ConfInv (applySpread m s) := by
  obtain ⟨h0, h95, hd⟩ := h
  unfold applySpread
  split_ifs with hc
  · exact ⟨le_trans (by norm_num) (le_max_left _ _),
      max_le (by norm_num) (by linarith), fun _ => le_max_left _ _⟩
  · exact ⟨h0, h95, hd⟩

theorem confInv_weeklyBuyHigh (pos : ℚ) (s : HybridSignal)
    (h : ConfInv s) : ConfInv (weeklyBuyHigh pos s) := by
  obtain ⟨h0, h95, hd⟩ := h
  unfold weeklyBuyHigh
  split_ifs with hc
  · exact ⟨le_trans (by norm_num) (le_max_left _ _),
      max_le (by norm_num) (by linarith), fun _ => le_max_left _ _⟩
  · exact ⟨h0, h95, hd⟩

theorem confInv_weeklySellLow (pos : ℚ) (s : HybridSignal)
    (h : ConfInv s) : ConfInv (weeklySellLow pos s) := by
  obtain ⟨h0, h95, hd⟩ := h
  unfold weeklySellLow
  split_ifs with hc
  · exact ⟨le_trans (by norm_num) (le_max_left _ _),
      max_le (by norm_num) (by linarith), fun _ => le_max_left _ _⟩
  · exact ⟨h0, h95, hd⟩

theorem confInv_weeklyBuyLow (pos : ℚ) (s : HybridSignal)
    (h : ConfInv s) : ConfInv (weeklyBuyLow pos s) := by
  obtain ⟨h0, h95, hd⟩ := h
  unfold weeklyBuyLow
  split_ifs with hc
  · exact ⟨le_min (by norm_num) (by linarith), min_le_left _ _,
      fun hw => le_min (by norm_num) (by linarith [hd hw])⟩
  · exact ⟨h0, h95, hd⟩

theorem confInv_weeklySellHigh (pos : ℚ) (s : HybridSignal)
    (h : ConfInv s) : ConfInv (weeklySellHigh pos s) := by
  obtain ⟨h0, h95, hd⟩ := h
  unfold weeklySellHigh
  split_ifs with hc
  · exact ⟨le_min (by norm_num) (by linarith), min_le_left _ _,
      fun hw => le_min (by norm_num) (by linarith [hd hw])⟩
  · exact ⟨h0, h95, hd⟩

theorem confInv_applyWeekly (m : ModifierInput) (s : HybridSignal)
    (h : ConfInv s) : ConfInv (applyWeekly m s) := by
  unfold applyWeekly
  cases m.weeklyPos with
  | none => exact h
  | some pos =>
    exact confInv_weeklySellHigh pos _ (confInv_weeklyBuyLow pos _
      (confInv_weeklySellLow pos _ (confInv_weeklyBuyHigh pos _ h)))

theorem confInv_applyNews (m : ModifierInput) (s : HybridSignal)
    (h : ConfInv s) : ConfInv (applyNews m s) := by
  obtain ⟨h0, h95, hd⟩ := h
  unfold applyNews
  split_ifs with hc
  · exact ⟨le_min h0 (by norm_num),
      le_trans (min_le_right _ _) (by norm_num),
      fun hw => absurd rfl hw⟩
  · exact ⟨h0, h95, hd⟩

theorem confInv_applyFundamental (m : ModifierInput) (s : HybridSignal)
    (h : ConfInv s) : ConfInv (applyFundamental m s) := by
  obtain ⟨h0, h95, hd⟩ := h
  unfold applyFundamental
  split_ifs with h1 h2 h3
  · have h20 : (20:ℚ) ≤ s.confidence := hd (by rw [h1.2]; decide)
    exact ⟨le_min (by norm_num) (by linarith), min_le_left _ _,
      fun _ => le_min (by norm_num) (by linarith)⟩
  · have h20 : (20:ℚ) ≤ s.confidence := hd (by rw [h2.2]; decide)
    exact ⟨le_min (by norm_num) (by linarith), min_le_left _ _,
      fun _ => le_min (by norm_num) (by linarith)⟩
  · exact ⟨le_trans (by norm_num) (le_max_left _ _),
      max_le (by norm_num) (by linarith), fun _ => le_max_left _ _⟩
  · exact ⟨h0, h95, hd⟩

theorem confInv_combine (ict : GoldSignal) (pa : PriceActionSignal) (atr : ℚ)
    (hi0 : 0 ≤ ict.confidence) (hi95 : ict.confidence ≤ 95)
    (hp0 : 0 ≤ pa.confidence) (hp95 : pa.confidence ≤ 95)
    (hid : ict.action ≠ Action.WAIT → 20 ≤ ict.confidence)
    (hpd : pa.action ≠ Action.WAIT → 25 ≤ pa.confidence) :
    ConfInv (combineSignals ict pa atr) := by
  unfold combineSignals
  dsimp only
  split_ifs with h1 h2 h3 h4
  · have h20i := hid h1.2
    have hpne : pa.action ≠ Action.WAIT := by rw [← h1.1]; exact h1.2
    have h20p := hpd hpne
    exact ⟨le_min (by norm_num) (by linarith), min_le_left _ _,
      fun _ => le_min (by norm_num) (by linarith)⟩
  · have hm1 : min ict.confidence pa.confidence ≤ ict.confidence := min_le_left _ _
    have hm0 : 0 ≤ min ict.confidence pa.confidence := le_min hi0 hp0
    exact ⟨by linarith, by linarith, fun hw => absurd rfl hw⟩
  · have h20p := hpd h3.2
    exact ⟨by linarith, by linarith, fun _ => by linarith⟩
  · exact ⟨hi0, hi95, fun _ => hid h4.2⟩
  · exact ⟨hi0, hi95, fun hw => hid hw⟩

/-- C2: for every fused pair within the builders' output ranges
(confidences in [0,95]; a directional primary carries confidence ≥ 20 and a
directional secondary ≥ 25, both guaranteed by the builders) and every
modifier context, the final confidence lies in [0,95], and it is at least
20 whenever the final action is BUY or SELL. -/
theorem c2_confidence_bounds (ict : GoldSignal) (pa : PriceActionSignal)
    (atr : ℚ) (m : ModifierInput)
    (hi0 : 0 ≤ ict.confidence) (hi95 : ict.confidence ≤ 95)
    (hp0 : 0 ≤ pa.confidence) (hp95 : pa.confidence ≤ 95)
    (hid : ict.action ≠ Action.WAIT → 20 ≤ ict.confidence)
    (hpd : pa.action ≠ Action.WAIT → 25 ≤ pa.confidence) :
    0 ≤ (applyModifiers m (combineSignals ict pa atr)).confidence ∧
      (applyModifiers m (combineSignals ict pa atr)).confidence ≤ 95 ∧
      ((applyModifiers m (combineSignals ict pa atr)).action ≠ Action.WAIT →
        20 ≤ (applyModifiers m (combineSignals ict pa atr)).confidence) := by
  exact confInv_applyFundamental m _ (confInv_applyNews m _
    (confInv_applyWeekly m _ (confInv_applySpread m _
      (confInv_combine ict pa atr hi0 hi95 hp0 hp95 hid hpd))))

/-- Witness for C2 at a concrete agreeing BUY/BUY pair under a neutral
modifier context. -/
theorem c2_confidence_bounds_witness :
    0 ≤ (applyModifiers mNeutral (combineSignals ictBuy70 paBuy70 15)).confidence ∧
      (applyModifiers mNeutral (combineSignals ictBuy70 paBuy70 15)).confidence ≤ 95 ∧
      ((applyModifiers mNeutral (combineSignals ictBuy70 paBuy70 15)).action ≠ Action.WAIT →
        20 ≤ (applyModifiers mNeutral (combineSignals ictBuy70 paBuy70 15)).confidence) := by
  exact c2_confidence_bounds ictBuy70 paBuy70 15 mNeutral (by decide)
    (by decide) (by decide) (by decide)
    (fun _ => by decide) (fun _ => by decide)

/-- C3: for both-directional pairs, agreement keeps the action with
confidence min(95, 0.6·P + 0.4·S) and averages entry/tp1/stop, while
disagreement forces WAIT at confidence min(P,S)·0.5. -/
theorem c3_agree_boosts_conflict_suppresses (ict : GoldSignal)
    (pa : PriceActionSignal) (atr : ℚ)
    (h1 : ict.action ≠ Action.WAIT) (h2 : pa.action ≠ Action.WAIT) :
    (ict.action = pa.action →
      (combineSignals ict pa atr).action = ict.action ∧
      (combineSignals ict pa atr).confidence =
        min 95 (ict.confidence * 0.6 + pa.confidence * 0.4) ∧
      (combineSignals ict pa atr).entry = (ict.entry + pa.entry) / 2 ∧
      (combineSignals ict pa atr).tp1 = (ict.tp1 + pa.takeProfit1) / 2 ∧
      (combineSignals ict pa atr).stopLoss = (ict.stopLoss + pa.stopLoss) / 2) ∧
    (ict.action ≠ pa.action →
      (combineSignals ict pa atr).action = Action.WAIT ∧
      (combineSignals ict pa atr).confidence =
        min ict.confidence pa.confidence * 0.5) := by
  unfold combineSignals
  dsimp only
  constructor
  · intro heq
    rw [if_pos ⟨heq, h1⟩]
    exact ⟨rfl, rfl, rfl, rfl, rfl⟩
  · intro hne
    rw [if_neg (fun hc => hne hc.1), if_pos ⟨hne, h1, h2⟩]
    exact ⟨rfl, rfl⟩

/-- Witness for C3: BUY@70 with BUY@70 fuses to BUY@70 exactly; BUY@70 with
SELL@70 fuses to WAIT@35. -/
theorem c3_agree_boosts_conflict_suppresses_witness :
    ((combineSignals ictBuy70 paBuy70 15).action = Action.BUY ∧
      (combineSignals ictBuy70 paBuy70 15).confidence = 70) ∧
    ((combineSignals ictBuy70 paSell70 15).action = Action.WAIT ∧
      (combineSignals ictBuy70 paSell70 15).confidence = 35) := by
  have hA := (c3_agree_boosts_conflict_suppresses ictBuy70 paBuy70 15
    (by decide) (by decide)).1 (by decide)
  have hB := (c3_agree_boosts_conflict_suppresses ictBuy70 paSell70 15
    (by decide) (by decide)).2 (by decide)
  refine ⟨⟨hA.1, ?_⟩, hB.1, ?_⟩
  · rw [hA.2.1]; with_unfolding_all decide
  · rw [hB.2]; with_unfolding_all decide

/-- C4 (amended): when the primary is WAIT and the secondary is not,
fusion adopts the secondary's action, entry, first take-profit, stop and
R:R, discounting its confidence by 0.8; but in the opposite direction —
secondary WAIT, primary directional — the primary signal passes through
with action, levels AND confidence entirely unchanged (no 0.8 discount). -/
theorem c4_one_sided_wait (ict : GoldSignal) (pa : PriceActionSignal) (atr : ℚ) :
    (ict.action = Action.WAIT → pa.action ≠ Action.WAIT →
      (combineSignals ict pa atr).action = pa.action ∧
      (combineSignals ict pa atr).confidence = pa.confidence * 0.8 ∧
      (combineSignals ict pa atr).entry = pa.entry ∧
      (combineSignals ict pa atr).tp1 = pa.takeProfit1 ∧
      (combineSignals ict pa atr).stopLoss = pa.stopLoss ∧
      (combineSignals ict pa atr).rr1 = pa.riskReward) ∧
    (pa.action = Action.WAIT → ict.action ≠ Action.WAIT →
      (combineSignals ict pa atr).action = ict.action ∧
      (combineSignals ict pa atr).confidence = ict.confidence ∧
      (combineSignals ict pa atr).entry = ict.entry ∧
      (combineSignals ict pa atr).stopLoss = ict.stopLoss ∧
      (combineSignals ict pa atr).tp1 = ict.tp1 ∧
      (combineSignals ict pa atr).tp2 = ict.tp2 ∧
      (combineSignals ict pa atr).tp3 = ict.tp3) := by
  unfold combineSignals
  dsimp only
  constructor
  · intro hiw hpn
    rw [if_neg (fun hc => hc.2 hiw), if_neg (fun hc => hc.2.1 hiw),
        if_pos ⟨hiw, hpn⟩]
    exact ⟨rfl, rfl, rfl, rfl, rfl, rfl⟩
  · intro hpw hin
    rw [if_neg (fun hc => hc.2 (hc.1.trans hpw)), if_neg (fun hc => hc.2.2 hpw),
        if_neg (fun hc => hin hc.1), if_pos ⟨hpw, hin⟩]
    exact ⟨rfl, rfl, rfl, rfl, rfl, rfl, rfl⟩

/-- Witness for C4: WAIT primary with BUY@70 secondary gives BUY@56
(the 0.8 discount), and BUY@70 primary with WAIT secondary keeps
confidence 70. -/
theorem c4_one_sided_wait_witness :
    ((combineSignals ictWait70 paBuy70 15).action = Action.BUY ∧
      (combineSignals ictWait70 paBuy70 15).confidence = 56) ∧
    (combineSignals ictBuy70 paWait 15).confidence = 70 := by
  have hA := (c4_one_sided_wait ictWait70 paBuy70 15).1 rfl (by decide)
  have hB := (c4_one_sided_wait ictBuy70 paWait 15).2 rfl (by decide)
  refine ⟨⟨hA.1, ?_⟩, hB.2.1⟩
  rw [hA.2.1]; with_unfolding_all decide

/-- Counterexample to C4 as stated: for a directional primary (BUY@70) and
an abstaining secondary, the fused confidence is the primary's 70 — NOT the
claimed 0.8 discount (56). -/
theorem c4_counterexample :
    (combineSignals ictBuy70 paWait 15).action = Action.BUY ∧
      (combineSignals ictBuy70 paWait 15).confidence = 70 ∧
      (combineSignals ictBuy70 paWait 15).confidence ≠ ictBuy70.confidence * 0.8 := by
  with_unfolding_all decide

/-- C10: whenever the secondary signal abstains (action WAIT), fusion
preserves every trading field of the primary signal — action, confidence,
entry, stop, all take-profits and all R:R ratios — and only appends
confluence text and the pattern-name list. -/
theorem c10_secondary_wait_frame (ict : GoldSignal) (pa : PriceActionSignal)
    (atr : ℚ) (h : pa.action = Action.WAIT) :
    (combineSignals ict pa atr).action = ict.action ∧
    (combineSignals ict pa atr).confidence = ict.confidence ∧
    (combineSignals ict pa atr).entry = ict.entry ∧
    (combineSignals ict pa atr).stopLoss = ict.stopLoss ∧
    (combineSignals ict pa atr).tp1 = ict.tp1 ∧
    (combineSignals ict pa atr).tp2 = ict.tp2 ∧
    (combineSignals ict pa atr).tp3 = ict.tp3 ∧
    (combineSignals ict pa atr).rr1 = ict.rr1 ∧
    (combineSignals ict pa atr).rr2 = ict.rr2 ∧
    (combineSignals ict pa atr).rr3 = ict.rr3 ∧
    (∃ extra, (combineSignals ict pa atr).confluences = ict.confluences ++ extra) ∧
    (combineSignals ict pa atr).priceActionPatterns =
      pa.patterns.map (fun p => p.name) := by
  unfold combineSignals
  dsimp only
  by_cases hict : ict.action = Action.WAIT
  · rw [if_neg (fun hc => hc.2 hict), if_neg (fun hc => hc.2.1 hict),
        if_neg (fun hc => hc.2 h), if_neg (fun hc => hc.2 hict)]
    exact ⟨rfl, rfl, rfl, rfl, rfl, rfl, rfl, rfl, rfl, rfl,
      ⟨["PA + ICT agree: sideways/consolidation"], rfl⟩, rfl⟩
  · rw [if_neg (fun hc => hc.2 (hc.1.trans h)), if_neg (fun hc => hc.2.2 h),
        if_neg (fun hc => hict hc.1), if_pos ⟨h, hict⟩]
    exact ⟨rfl, rfl, rfl, rfl, rfl, rfl, rfl, rfl, rfl, rfl,
      ⟨["PA showing consolidation - ICT signal " ++ ict.action.str ++ " at " ++
        jsToFixed0 ict.confidence ++ "%"], rfl⟩, rfl⟩

/-- Witness for C10 at a concrete BUY primary and WAIT secondary. -/
theorem c10_secondary_wait_frame_witness :
    (combineSignals ictBuy70 paWait 15).action = Action.BUY ∧
      (combineSignals ictBuy70 paWait 15).tp2 = ictBuy70.tp2 ∧
      (combineSignals ictBuy70 paWait 15).rr3 = ictBuy70.rr3 := by
  have h := c10_secondary_wait_frame ictBuy70 paWait 15 rfl
  exact ⟨h.1, h.2.2.2.2.2.1, h.2.2.2.2.2.2.2.2.2.1⟩

set_option maxRecDepth 400000 in
/-- Counterexample to C5 as stated: on the 50 identical bars the EMA
tie-break (`ema20 > ema50` false on equality) pushes the bias from NEUTRAL
to BEARISH, and with the neutral RSI default of 50 (> 45) the primary
builder's AMD-bias override then emits SELL — so neither the NEUTRAL bias
nor the all-WAIT outcome claimed by the spec holds. -/
theorem c5_counterexample :
    (detectAMD flatCandles "1h").bias = Bias.BEARISH ∧
      (detectAMD flatCandles "1h").bias ≠ Bias.NEUTRAL ∧
      flatSignal.action = Action.SELL ∧
      (combineSignals flatSignal flatPA 15).action ≠ Action.WAIT := by
  with_unfolding_all decide

set_option maxRecDepth 400000 in
/-- C5 (amended): on 50 identical OHLC bars at 2000 the regime classifier
does return phase TRANSITION without NaN propagation and every zone
detector returns empty, and the secondary builder returns WAIT; but the
regime bias is BEARISH (EMA tie-break), the primary builder returns SELL
at confidence 63 via the AMD-bias override, and the fused action is SELL,
not WAIT. -/
theorem c5_flat_market :
    (detectAMD flatCandles "1h").phase = Phase.TRANSITION ∧
      (detectAMD flatCandles "1h").bias = Bias.BEARISH ∧
      detectOrderBlocks flatCandles = [] ∧
      detectFVGs flatCandles = [] ∧
      detectSRLevels flatCandles = [] ∧
      detectLiquidityZones flatCandles = [] ∧
      flatPA.action = Action.WAIT ∧
      flatSignal.action = Action.SELL ∧
      flatSignal.confidence = 63 ∧
      (combineSignals flatSignal flatPA 15).action = Action.SELL := by
  with_unfolding_all decide

/-! Projection lemmas for `buildSignal`: each follows definitionally from
the record the function returns. -/

theorem buildSignal_entry (candles : List Candle) (rsi : ℚ) (macd : MACDObj)
    (bbands : BBandsObj) (atr : ℚ) (amd : AMDPhase) (obs : List OrderBlock)
    (fvgs : List FVG) (srs : List SRLevel) :
    (buildSignal candles rsi macd bbands atr amd obs fvgs srs).entry =
      (jsLast candles).close := rfl

theorem buildSignal_stopLoss (candles : List Candle) (rsi : ℚ) (macd : MACDObj)
    (bbands : BBandsObj) (atr : ℚ) (amd : AMDPhase) (obs : List OrderBlock)
    (fvgs : List FVG) (srs : List SRLevel) :
    (buildSignal candles rsi macd bbands atr amd obs fvgs srs).stopLoss =
      (if (buildSignal candles rsi macd bbands atr amd obs fvgs srs).action = Action.BUY
       then (jsLast candles).close - atr * 1.5
       else (jsLast candles).close + atr * 1.5) := rfl

theorem buildSignal_tp1 (candles : List Candle) (rsi : ℚ) (macd : MACDObj)
    (bbands : BBandsObj) (atr : ℚ) (amd : AMDPhase) (obs : List OrderBlock)
    (fvgs : List FVG) (srs : List SRLevel) :
    (buildSignal candles rsi macd bbands atr amd obs fvgs srs).tp1 =
      (if (buildSignal candles rsi macd bbands atr amd obs fvgs srs).action = Action.BUY
       then (jsLast candles).close + atr * 1.5 * 2
       else (jsLast candles).close - atr * 1.5 * 2) := rfl

theorem buildSignal_tp2 (candles : List Candle) (rsi : ℚ) (macd : MACDObj)
    (bbands : BBandsObj) (atr : ℚ) (amd : AMDPhase) (obs : List OrderBlock)
    (fvgs : List FVG) (srs : List SRLevel) :
    (buildSignal candles rsi macd bbands atr amd obs fvgs srs).tp2 =
      (if (buildSignal candles rsi macd bbands atr amd obs fvgs srs).action = Action.BUY
       then (jsLast candles).close + atr * 1.5 * 3
       else (jsLast candles).close - atr * 1.5 * 3) := rfl

theorem buildSignal_tp3 (candles : List Candle) (rsi : ℚ) (macd : MACDObj)
    (bbands : BBandsObj) (atr : ℚ) (amd : AMDPhase) (obs : List OrderBlock)
    (fvgs : List FVG) (srs : List SRLevel) :
    (buildSignal candles rsi macd bbands atr amd obs fvgs srs).tp3 =
      (if (buildSignal candles rsi macd bbands atr amd obs fvgs srs).action = Action.BUY
       then (jsLast candles).close + atr * 1.5 * 4
       else (jsLast candles).close - atr * 1.5 * 4) := rfl

theorem buildSignal_rr1 (candles : List Candle) (rsi : ℚ) (macd : MACDObj)
    (bbands : BBandsObj) (atr : ℚ) (amd : AMDPhase) (obs : List OrderBlock)
    (fvgs : List FVG) (srs : List SRLevel) :
    (buildSignal candles rsi macd bbands atr amd obs fvgs srs).rr1 =
      jsDiv |(buildSignal candles rsi macd bbands atr amd obs fvgs srs).tp1 -
              (buildSignal candles rsi macd bbands atr amd obs fvgs srs).entry|
            |(buildSignal candles rsi macd bbands atr amd obs fvgs srs).entry -
              (buildSignal candles rsi macd bbands atr amd obs fvgs srs).stopLoss| := rfl

theorem buildSignal_rr2 (candles : List Candle) (rsi : ℚ) (macd : MACDObj)
    (bbands : BBandsObj) (atr : ℚ) (amd : AMDPhase) (obs : List OrderBlock)
    (fvgs : List FVG) (srs : List SRLevel) :
    (buildSignal candles rsi macd bbands atr amd obs fvgs srs).rr2 =
      jsDiv |(buildSignal candles rsi macd bbands atr amd obs fvgs srs).tp2 -
              (buildSignal candles rsi macd bbands atr amd obs fvgs srs).entry|
            |(buildSignal candles rsi macd bbands atr amd obs fvgs srs).entry -
              (buildSignal candles rsi macd bbands atr amd obs fvgs srs).stopLoss| := rfl

theorem buildSignal_rr3 (candles : List Candle) (rsi : ℚ) (macd : MACDObj)
    (bbands : BBandsObj) (atr : ℚ) (amd : AMDPhase) (obs : List OrderBlock)
    (fvgs : List FVG) (srs : List SRLevel) :
    (buildSignal candles rsi macd bbands atr amd obs fvgs srs).rr3 =
      jsDiv |(buildSignal candles rsi macd bbands atr amd obs fvgs srs).tp3 -
              (buildSignal candles rsi macd bbands atr amd obs fvgs srs).entry|
            |(buildSignal candles rsi macd bbands atr amd obs fvgs srs).entry -
              (buildSignal candles rsi macd bbands atr amd obs fvgs srs).stopLoss| := rfl

theorem jsLast_eq_getLast (candles : List Candle) (h : candles ≠ []) :
    jsLast candles = candles.getLast h := by
  unfold jsLast
  rw [List.getLast?_eq_getLast candles h]
  rfl

/-- C6 (amended): for every non-WAIT primary signal the entry is the last
candle's close and the stop sits 1.5×ATR on the losing side, but the three
take-profits sit at 2×, 3× and 4× the STOP DISTANCE (1.5×ATR) — that is,
3×, 4.5× and 6× the volatility — from entry in the trade direction; each
R:R equals |target − entry| / |entry − stop| (undefined when the stop
distance is zero, as `jsDiv` records). -/
theorem c6_level_ladder (candles : List Candle) (rsi : ℚ) (macd : MACDObj)
    (bbands : BBandsObj) (atr : ℚ) (amd : AMDPhase) (obs : List OrderBlock)
    (fvgs : List FVG) (srs : List SRLevel) (h : candles ≠ [])
    (hact : (buildSignal candles rsi macd bbands atr amd obs fvgs srs).action ≠
      Action.WAIT) :
    (buildSignal candles rsi macd bbands atr amd obs fvgs srs).entry =
      (candles.getLast h).close ∧
    ((buildSignal candles rsi macd bbands atr amd obs fvgs srs).action = Action.BUY →
      (buildSignal candles rsi macd bbands atr amd obs fvgs srs).stopLoss =
        (candles.getLast h).close - atr * 1.5 ∧
      (buildSignal candles rsi macd bbands atr amd obs fvgs srs).tp1 =
        (candles.getLast h).close + atr * 1.5 * 2 ∧
      (buildSignal candles rsi macd bbands atr amd obs fvgs srs).tp2 =
        (candles.getLast h).close + atr * 1.5 * 3 ∧
      (buildSignal candles rsi macd bbands atr amd obs fvgs srs).tp3 =
        (candles.getLast h).close + atr * 1.5 * 4) ∧
    ((buildSignal candles rsi macd bbands atr amd obs fvgs srs).action = Action.SELL →
      (buildSignal candles rsi macd bbands atr amd obs fvgs srs).stopLoss =
        (candles.getLast h).close + atr * 1.5 ∧
      (buildSignal candles rsi macd bbands atr amd obs fvgs srs).tp1 =
        (candles.getLast h).close - atr * 1.5 * 2 ∧
      (buildSignal candles rsi macd bbands atr amd obs fvgs srs).tp2 =
        (candles.getLast h).close - atr * 1.5 * 3 ∧
      (buildSignal candles rsi macd bbands atr amd obs fvgs srs).tp3 =
        (candles.getLast h).close - atr * 1.5 * 4) ∧
    (buildSignal candles rsi macd bbands atr amd obs fvgs srs).rr1 =
      jsDiv |(buildSignal candles rsi macd bbands atr amd obs fvgs srs).tp1 -
              (buildSignal candles rsi macd bbands atr amd obs fvgs srs).entry|
            |(buildSignal candles rsi macd bbands atr amd obs fvgs srs).entry -
              (buildSignal candles rsi macd bbands atr amd obs fvgs srs).stopLoss| ∧
    (buildSignal candles rsi macd bbands atr amd obs fvgs srs).rr2 =
      jsDiv |(buildSignal candles rsi macd bbands atr amd obs fvgs srs).tp2 -
              (buildSignal candles rsi macd bbands atr amd obs fvgs srs).entry|
            |(buildSignal candles rsi macd bbands atr amd obs fvgs srs).entry -
              (buildSignal candles rsi macd bbands atr amd obs fvgs srs).stopLoss| ∧
    (buildSignal candles rsi macd bbands atr amd obs fvgs srs).rr3 =
      jsDiv |(buildSignal candles rsi macd bbands atr amd obs fvgs srs).tp3 -
              (buildSignal candles rsi macd bbands atr amd obs fvgs srs).entry|
            |(buildSignal candles rsi macd bbands atr amd obs fvgs srs).entry -
              (buildSignal candles rsi macd bbands atr amd obs fvgs srs).stopLoss| := by
  have _ := hact
  refine ⟨?_, ?_, ?_, buildSignal_rr1 _ _ _ _ _ _ _ _ _,
    buildSignal_rr2 _ _ _ _ _ _ _ _ _, buildSignal_rr3 _ _ _ _ _ _ _ _ _⟩
  · rw [buildSignal_entry, jsLast_eq_getLast candles h]
  · intro hb
    rw [buildSignal_stopLoss, buildSignal_tp1, buildSignal_tp2, buildSignal_tp3,
        if_pos hb, if_pos hb, if_pos hb, if_pos hb, jsLast_eq_getLast candles h]
    exact ⟨rfl, rfl, rfl, rfl⟩
  · intro hs
    have hnb : (buildSignal candles rsi macd bbands atr amd obs fvgs srs).action ≠
        Action.BUY := by rw [hs]; decide
    rw [buildSignal_stopLoss, buildSignal_tp1, buildSignal_tp2, buildSignal_tp3,
        if_neg hnb, if_neg hnb, if_neg hnb, if_neg hnb, jsLast_eq_getLast candles h]
    exact ⟨rfl, rfl, rfl, rfl⟩

set_option maxRecDepth 400000 in
/-- Witness for C6 at the concrete ATR-2 BUY input. -/
theorem c6_level_ladder_witness :
    buySignalAtr2.entry = 2000 ∧ buySignalAtr2.stopLoss = 1997 ∧
      buySignalAtr2.tp1 = 2006 ∧ buySignalAtr2.tp3 = 2012 := by
  have h := c6_level_ladder flatCandles 25 neutralMacd neutralBB 2 amdT [] [] []
    (by with_unfolding_all decide) (by with_unfolding_all decide)
  have hb := h.2.1 (by with_unfolding_all decide)
  refine ⟨?_, ?_, ?_, ?_⟩
  · rw [show buySignalAtr2 = buildSignal flatCandles 25 neutralMacd neutralBB 2 amdT [] [] [] from rfl, h.1]
    with_unfolding_all decide
  · rw [show buySignalAtr2 = buildSignal flatCandles 25 neutralMacd neutralBB 2 amdT [] [] [] from rfl, hb.1]
    with_unfolding_all decide
  · rw [show buySignalAtr2 = buildSignal flatCandles 25 neutralMacd neutralBB 2 amdT [] [] [] from rfl, hb.2.1]
    with_unfolding_all decide
  · rw [show buySignalAtr2 = buildSignal flatCandles 25 neutralMacd neutralBB 2 amdT [] [] [] from rfl, hb.2.2.2]
    with_unfolding_all decide

set_option maxRecDepth 400000 in
/-- Counterexample to C6 as stated: with ATR 2 the BUY signal's first
take-profit is 2006 = entry + 2×(1.5×ATR), not entry + 2×ATR = 2004 as the
claim's "2× volatility from entry" requires. -/
theorem c6_counterexample :
    buySignalAtr2.action = Action.BUY ∧ buySignalAtr2.entry = 2000 ∧
      buySignalAtr2.tp1 = 2006 ∧ ¬(buySignalAtr2.tp1 = buySignalAtr2.entry + 2 * 2) := by
  with_unfolding_all decide

/-- `jsDiv |x * k| |x| = some k` for `x ≠ 0` and `k ≥ 0`. -/
theorem jsDiv_scaled (x k : ℚ) (hx : x ≠ 0) (hk : 0 ≤ k) :
    jsDiv |x * k| |x| = some k := by
  unfold jsDiv
  rw [if_neg (abs_ne_zero.mpr hx)]
  congr 1
  rw [abs_mul, abs_of_nonneg hk, mul_comm, mul_div_assoc,
      div_self (abs_ne_zero.mpr hx), mul_one]

/-- C7 (amended): whenever the primary builder emits a directional action
AND the volatility input is nonzero, the three R:R ratios are exactly 2, 3
and 4, hence strictly increasing and positive.  (With ATR = 0 the stop
distance vanishes and the ratios are undefined 0/0 divisions, so the claim
fails there.) -/
theorem c7_rr_monotone (candles : List Candle) (rsi : ℚ) (macd : MACDObj)
    (bbands : BBandsObj) (atr : ℚ) (amd : AMDPhase) (obs : List OrderBlock)
    (fvgs : List FVG) (srs : List SRLevel)
    (hact : (buildSignal candles rsi macd bbands atr amd obs fvgs srs).action ≠
      Action.WAIT)
    (hatr : atr ≠ 0) :
    (buildSignal candles rsi macd bbands atr amd obs fvgs srs).rr1 = some 2 ∧
    (buildSignal candles rsi macd bbands atr amd obs fvgs srs).rr2 = some 3 ∧
    (buildSignal candles rsi macd bbands atr amd obs fvgs srs).rr3 = some 4 ∧
    rrIncreasing (buildSignal candles rsi macd bbands atr amd obs fvgs srs) := by
  have hx : atr * 1.5 ≠ 0 := mul_ne_zero hatr (by norm_num)
  have key : ∀ k : ℚ, 0 ≤ k →
      jsDiv |(buildSignal candles rsi macd bbands atr amd obs fvgs srs).entry +
              atr * 1.5 * k -
              (buildSignal candles rsi macd bbands atr amd obs fvgs srs).entry|
            |(buildSignal candles rsi macd bbands atr amd obs fvgs srs).entry -
              ((buildSignal candles rsi macd bbands atr amd obs fvgs srs).entry -
               atr * 1.5)| = some k := by
    intro k hk
    have e1 : (buildSignal candles rsi macd bbands atr amd obs fvgs srs).entry +
        atr * 1.5 * k -
        (buildSignal candles rsi macd bbands atr amd obs fvgs srs).entry =
        atr * 1.5 * k := by ring
    have e2 : (buildSignal candles rsi macd bbands atr amd obs fvgs srs).entry -
        ((buildSignal candles rsi macd bbands atr amd obs fvgs srs).entry -
         atr * 1.5) = atr * 1.5 := by ring
    rw [e1, e2]
    exact jsDiv_scaled (atr * 1.5) k hx hk
  have keySell : ∀ k : ℚ, 0 ≤ k →
      jsDiv |(buildSignal candles rsi macd bbands atr amd obs fvgs srs).entry -
              atr * 1.5 * k -
              (buildSignal candles rsi macd bbands atr amd obs fvgs srs).entry|
            |(buildSignal candles rsi macd bbands atr amd obs fvgs srs).entry -
              ((buildSignal candles rsi macd bbands atr amd obs fvgs srs).entry +
               atr * 1.5)| = some k := by
    intro k hk
    have e1 : (buildSignal candles rsi macd bbands atr amd obs fvgs srs).entry -
        atr * 1.5 * k -
        (buildSignal candles rsi macd bbands atr amd obs fvgs srs).entry =
        -(atr * 1.5) * k := by ring
    have e2 : (buildSignal candles rsi macd bbands atr amd obs fvgs srs).entry -
        ((buildSignal candles rsi macd bbands atr amd obs fvgs srs).entry +
         atr * 1.5) = -(atr * 1.5) := by ring
    rw [e1, e2]
    exact jsDiv_scaled (-(atr * 1.5)) k (neg_ne_zero.mpr hx) hk
  have hrr : (buildSignal candles rsi macd bbands atr amd obs fvgs srs).rr1 = some 2 ∧
      (buildSignal candles rsi macd bbands atr amd obs fvgs srs).rr2 = some 3 ∧
      (buildSignal candles rsi macd bbands atr amd obs fvgs srs).rr3 = some 4 := by
    rcases hcase : (buildSignal candles rsi macd bbands atr amd obs fvgs srs).action with _ | _ | _
    · refine ⟨?_, ?_, ?_⟩
      · rw [buildSignal_rr1, buildSignal_tp1, buildSignal_stopLoss, if_pos hcase,
            if_pos hcase, buildSignal_entry]
        exact key 2 (by norm_num)
      · rw [buildSignal_rr2, buildSignal_tp2, buildSignal_stopLoss, if_pos hcase,
            if_pos hcase, buildSignal_entry]
        exact key 3 (by norm_num)
      · rw [buildSignal_rr3, buildSignal_tp3, buildSignal_stopLoss, if_pos hcase,
            if_pos hcase, buildSignal_entry]
        exact key 4 (by norm_num)
    · have hnb : (buildSignal candles rsi macd bbands atr amd obs fvgs srs).action ≠
          Action.BUY := by rw [hcase]; decide
      refine ⟨?_, ?_, ?_⟩
      · rw [buildSignal_rr1, buildSignal_tp1, buildSignal_stopLoss, if_neg hnb,
            if_neg hnb, buildSignal_entry]
        exact keySell 2 (by norm_num)
      · rw [buildSignal_rr2, buildSignal_tp2, buildSignal_stopLoss, if_neg hnb,
            if_neg hnb, buildSignal_entry]
        exact keySell 3 (by norm_num)
      · rw [buildSignal_rr3, buildSignal_tp3, buildSignal_stopLoss, if_neg hnb,
            if_neg hnb, buildSignal_entry]
        exact keySell 4 (by norm_num)
    · exact absurd hcase hact
  exact ⟨hrr.1, hrr.2.1, hrr.2.2,
    ⟨2, 3, 4, hrr.1, hrr.2.1, hrr.2.2, by norm_num, by norm_num, by norm_num⟩⟩

set_option maxRecDepth 400000 in
/-- Witness for C7 at the concrete ATR-2 BUY input. -/
theorem c7_rr_monotone_witness :
    buySignalAtr2.rr1 = some 2 ∧ buySignalAtr2.rr2 = some 3 ∧
      buySignalAtr2.rr3 = some 4 := by
  have h := c7_rr_monotone flatCandles 25 neutralMacd neutralBB 2 amdT [] [] []
    (by with_unfolding_all decide) (by norm_num)
  exact ⟨h.1, h.2.1, h.2.2.1⟩

set_option maxRecDepth 400000 in
/-- Counterexample to C7 as stated: with ATR 0 the builder still emits BUY
(RSI 25) but the stop distance is zero, every R:R is the undefined 0/0
division, and the strict chain rr3 > rr2 > rr1 > 0 fails. -/
theorem c7_counterexample :
    buySignalAtr0.action = Action.BUY ∧ buySignalAtr0.rr1 = none ∧
      ¬rrIncreasing buySignalAtr0 := by
  refine ⟨by with_unfolding_all decide, by with_unfolding_all decide, ?_⟩
  rintro ⟨a, b, c, h1, -, -, -, -, -⟩
  have h0 : buySignalAtr0.rr1 = none := by with_unfolding_all decide
  rw [h0] at h1
  exact Option.noConfusion h1

theorem fvgFinalize_type (latest : Candle) (f : FVG) :
    (fvgFinalize latest f).type = f.type := rfl

theorem fvgFinalize_midpoint (latest : Candle) (f : FVG) :
    (fvgFinalize latest f).midpoint = f.midpoint := rfl

/-- If a finalized gap is unmitigated, neither of the two mitigation guards
(latest wick across the midpoint) held. -/
theorem fvgFinalize_unmitigated (latest : Candle) (f0 : FVG)
    (h : (fvgFinalize latest f0).mitigated = false) :
    ¬(f0.type = Bias.BULLISH ∧ latest.low < f0.midpoint) ∧
      ¬(f0.type = Bias.BEARISH ∧ latest.high > f0.midpoint) := by
  unfold fvgFinalize at h
  dsimp only at h
  split_ifs at h with h2 h1
  exact ⟨h1, h2⟩

/-- C8 (amended): every gap in the detector's returned active set is
unmitigated, and because the mitigation `forEach` consults only the LATEST
bar (not every later bar), what being in the active set guarantees is that
the latest bar's wick has not crossed the gap's midpoint.  Re-running the
detector on the same frozen window trivially returns the same set, as
`detectFVGs` is a pure function of the window. -/
theorem c8_active_gaps (candles : List Candle) (f : FVG)
    (hf : f ∈ detectFVGs candles) :
    f.mitigated = false ∧
      ¬(f.type = Bias.BULLISH ∧ (jsLast candles).low < f.midpoint) ∧
      ¬(f.type = Bias.BEARISH ∧ (jsLast candles).high > f.midpoint) := by
  unfold detectFVGs at hf
  dsimp only at hf
  rw [List.mem_filter] at hf
  obtain ⟨hmem, hunmit⟩ := hf
  have hmf : f.mitigated = false := by simpa using hunmit
  unfold lastN at hmem
  have hmem2 : f ∈ (fvgLoop 1 candles).map (fvgFinalize (jsLast candles)) :=
    List.mem_of_mem_drop hmem
  rw [List.mem_map] at hmem2
  obtain ⟨f0, hf0, hEq⟩ := hmem2
  have hg := fvgFinalize_unmitigated (jsLast candles) f0 (by rw [hEq]; exact hmf)
  subst hEq
  rw [fvgFinalize_type, fvgFinalize_midpoint]
  exact ⟨hmf, hg.1, hg.2⟩

/-- Witness for C8 at the concrete five-bar window. -/
theorem c8_active_gaps_witness :
    gapBull.mitigated = false ∧
      ¬(gapBull.type = Bias.BULLISH ∧ (jsLast gapCandles).low < gapBull.midpoint) ∧
      ¬(gapBull.type = Bias.BEARISH ∧ (jsLast gapCandles).high > gapBull.midpoint) := by
  exact c8_active_gaps gapCandles gapBull (by with_unfolding_all decide)

/-- Counterexample to C8 as stated: on `gapCandles` the bullish gap
(midpoint 15) was crossed by bar 3's wick (low 12 < 15), yet because the
latest bar's low (16) stays above the midpoint the detector still returns
the gap as active. -/
theorem c8_counterexample :
    detectFVGs gapCandles = [gapBull] ∧
      (gapCandles[3]?).map Candle.low = some 12 ∧
      (12:ℚ) < gapBull.midpoint := by
  refine ⟨by with_unfolding_all decide, by with_unfolding_all decide, ?_⟩
  show (12:ℚ) < 15
  norm_num

/-! Minimum-window lemmas for the detectors. -/

theorem obLoop_short (i : Nat) (l : List Candle) (h : l.length < 4) :
    obLoop i l = [] := by
  match l, h with
  | [], _ => rfl
  | [a], _ => rfl
  | [a, b], _ => rfl
  | [a, b, c], _ => rfl

theorem fvgLoop_short (i : Nat) (l : List Candle) (h : l.length < 3) :
    fvgLoop i l = [] := by
  match l, h with
  | [], _ => rfl
  | [a], _ => rfl
  | [a, b], _ => rfl

theorem findSwings_short (l : List Candle) (h : l.length < 11) :
    findSwings l = [] := by
  induction l with
  | nil => rfl
  | cons c rest ih =>
    unfold findSwings
    rw [ih (by simp at h ⊢; omega)]
    have hsw : swingAt (c :: rest) = [] := by
      unfold swingAt
      rw [if_pos h]
    rw [hsw]
    rfl

theorem clusterLevels_nil (ty : SRType) : clusterLevels [] ty = [] := by
  unfold clusterLevels
  rw [List.mergeSort_nil]

/-- C9: every detector handed fewer bars than its minimum window returns
the empty list (3 bars for the candlestick detector, 20 for chart
patterns, 5 for order blocks, 3 for imbalance gaps, 11 for S/R levels and
liquidity pools); in the embedding all detectors are total functions, so
none can raise. -/
theorem c9_min_window (c : List Candle) :
    (c.length < 3 → detectCandlestickPatterns c = []) ∧
      (c.length < 20 → detectChartPatterns c = []) ∧
      (c.length < 5 → detectOrderBlocks c = []) ∧
      (c.length < 3 → detectFVGs c = []) ∧
      (c.length < 11 → detectSRLevels c = []) ∧
      (c.length < 11 → detectLiquidityZones c = []) := by
  refine ⟨?_, ?_, ?_, ?_, ?_, ?_⟩
  · intro h
    unfold detectCandlestickPatterns
    rw [if_pos h]
  · intro h
    unfold detectChartPatterns
    rw [if_pos h]
  · intro h
    unfold detectOrderBlocks
    dsimp only
    rw [obLoop_short 3 (c.drop 1) (by simp; omega)]
    rfl
  · intro h
    unfold detectFVGs
    dsimp only
    rw [fvgLoop_short 1 c (by omega)]
    rfl
  · intro h
    unfold detectSRLevels
    dsimp only
    rw [findSwings_short c h]
    simp [clusterLevels_nil, List.mergeSort_nil]
  · intro h
    unfold detectLiquidityZones
    dsimp only
    rw [findSwings_short c h]
    rfl

/-- Witness for C9 at a two-bar series. -/
theorem c9_min_window_witness :
    detectCandlestickPatterns twoCandles = [] ∧
      detectChartPatterns twoCandles = [] ∧
      detectOrderBlocks twoCandles = [] ∧
      detectFVGs twoCandles = [] ∧
      detectSRLevels twoCandles = [] ∧
      detectLiquidityZones twoCandles = [] := by
  have h := c9_min_window twoCandles
  exact ⟨h.1 (by decide), h.2.1 (by decide), h.2.2.1 (by decide),
    h.2.2.2.1 (by decide), h.2.2.2.2.1 (by decide), h.2.2.2.2.2 (by decide)⟩

end XAU
